import Mathlib

/-!
Verification development for the LEAF Toolbox (`Source-Python/LEAF.py` and
`Source-Python/SL2PV1ENF.py`).

The source drives the Google Earth Engine backend through lazy transform
graphs over image collections.  The shallow embedding below represents an
`ee.Image` as a finite set of named bands (each band a finite pixel array of
optional rational values, `none` = masked/no-data, together with its own
projection and scale) plus scalar metadata, and additionally records the list
of backend operations that produced the image (`ops`) — the linearised
provenance of the deferred transform graph.  An `ee.ImageCollection` is a
`List Image`.  Backend raster arithmetic that GEE performs server-side
(resampling interpolation, mosaicking order, sampling-point selection) is out
of scope of the repository and is modelled by simple deterministic choices,
documented at each definition.

Modules of the repository that are not under `src/` (`toolsNets`,
`toolsUtils`, `eoImage`, `dictionariesSL2P`) are modelled from the spec; each
such definition carries a doc comment starting `Modelled from the spec:`.
-/

namespace LEAF

/-- Backend reducers appearing in the source (`ee.Reducer.mean()`). -/
inductive Reducer
  | mean
  | other
deriving DecidableEq

/-- One backend operation of the deferred transform graph.  Each embedded
operation appends its constructor to the image's `ops` provenance list;
`combine` concatenates the provenance of both parents. -/
inductive Op
  | clip
  | maskClear
  | attachDate
  | attachLonLat
  | addGeometry
  | setDefaultProjectionFirst
  | reduceResolution (r : Reducer)
  | reproject (proj scale : Nat)
  | maskLand
  | scaleBands
  | invalidInput
  | addBands (names : List String)
  | select (names : List String)
  | applyNets (mode variableName : String)
  | combine
  | mosaic
  | renameBands (name : String)
  | toUint8
deriving DecidableEq

/-- One band of an image: a finite pixel array of optional values (`none` is
a masked / no-data pixel) with the band's own projection and scale. -/
structure BandData where
  vals : List (Option ℚ)
  proj : Nat
  scale : Nat
deriving DecidableEq

/-- An `ee.Image`: named bands plus the scalar metadata the source filters
on (acquisition date, metadata properties such as cloud cover, calendar
fields of the acquisition date, and a footprint used by `filterBounds`),
together with the provenance list of applied operations. -/
structure Image where
  bands : List (String × BandData)
  date : Int
  meta : List (String × ℚ)
  cal : List (String × Nat)
  footprint : List Nat
  ops : List Op
deriving DecidableEq

/-- Value of the named band at pixel `p` (out-of-range pixels are masked). -/
def bandValAt (image : Image) (name : String) (p : Nat) : Option ℚ :=
  match image.bands.find? (fun nb => nb.1 = name) with
  | some nb => nb.2.vals.getD p none
  | none => none

/-- Value of the first band at pixel `p` (GEE defaults to band order). -/
def firstBandVal (image : Image) (p : Nat) : Option ℚ :=
  match image.bands.head? with
  | some nb => nb.2.vals.getD p none
  | none => none

/-- Names of the image's bands, in band order (`ee.Image.bandNames`). -/
def bandNames (image : Image) : List String :=
  image.bands.map (fun nb => nb.1)

/-- Pixel count of the image, taken from its first band. -/
def numPixOf (image : Image) : Nat :=
  match image.bands.head? with
  | some nb => nb.2.vals.length
  | none => 0

/-- Apply a per-pixel masking predicate to one band (`true` = mask out). -/
def maskBand (pred : Nat → Bool) (bd : BandData) : BandData :=
  { bd with vals := bd.vals.enum.map (fun pv => if pred pv.1 then none else pv.2) }

/-- Apply a per-pixel masking predicate to every band of the image. -/
def maskPixels (pred : Nat → Bool) (image : Image) : Image :=
  { image with bands := image.bands.map (fun nb => (nb.1, maskBand pred nb.2)) }

/-- Embeds `image.clip(mapBounds)` (LEAF.py line 82): pixels outside the
region are masked in every band. -/
def clip (region : List Nat) (image : Image) : Image :=
  let m := maskPixels (fun p => decide (p ∉ region)) image
  { m with ops := image.ops ++ [Op.clip] }

/-- Embeds `ee.ImageCollection.filterBounds`: keep images whose footprint
intersects the region. -/
def passesBounds (region : List Nat) (image : Image) : Bool :=
  image.footprint.any (fun p => decide (p ∈ region))

/-- Embeds `ee.ImageCollection.filterDate`: keep images with
`startDate ≤ date < endDate`. -/
def passesDate (startDate endDate : Int) (image : Image) : Bool :=
  decide (startDate ≤ image.date) && decide (image.date < endDate)

/-- Embeds `filterMetadata(prop, 'less_than', bound)`: keep images whose
named metadata property is present and below the bound. -/
def passesMetadataLt (prop : String) (bound : ℚ) (image : Image) : Bool :=
  match image.meta.find? (fun kv => kv.1 = prop) with
  | some kv => decide (kv.2 < bound)
  | none => false

/-- Embeds `ee.Filter.calendarRange(rangeStart, rangeEnd, rangeField)`:
keep images whose calendar field lies in the (possibly year-wrapping)
inclusive range. -/
def passesCalendarRange (rangeStart rangeEnd : Nat) (rangeField : String)
    (image : Image) : Bool :=
  match image.cal.find? (fun kv => kv.1 = rangeField) with
  | some kv =>
      if rangeStart ≤ rangeEnd then
        decide (rangeStart ≤ kv.2) && decide (kv.2 ≤ rangeEnd)
      else
        decide (rangeStart ≤ kv.2) || decide (kv.2 ≤ rangeEnd)
  | none => false

/-- Modelled from the spec: one feed-forward network of the Network Asset
Store (`toolsNets` is not under `src/`): input normalisation parameters (an
affine map per input band, here as slope/offset pairs derived from the stored
min/max training bounds), a hidden tanh layer `W1, b1`, an output layer
`W2, b2`, and output denormalisation parameters. -/
structure Network where
  inpSlope : List ℚ
  inpOffset : List ℚ
  w1 : List (List ℚ)
  b1 : List ℚ
  w2 : List ℚ
  b2 : ℚ
  outSlope : ℚ
  outOffset : ℚ
deriving DecidableEq

/-- Placeholder network used only behind a bounds check that never selects it. -/
def defaultNetwork : Network := ⟨[], [], [], [], [], 0, 1, 0⟩

/-- Dot product of two coefficient lists (extra entries of the longer list
are ignored, as with zipped coefficient rows). -/
def dotQ (a b : List ℚ) : ℚ :=
  ((a.zip b).map (fun p => p.1 * p.2)).sum

/-- Modelled from the spec: the hidden-layer activation (`tanh` in the spec;
`toolsNets` is not under `src/`).  Exact `tanh` is transcendental, so a
rational sigmoid of the same odd, bounded shape stands in; no claim's truth
depends on the activation's values. -/
def tanhQ (x : ℚ) : ℚ := x / (1 + |x|)

/-- Modelled from the spec: the Network Evaluator (§4.1):
`x' = normalize(x)`, `h = tanh(W1·x' + b1)`, `y' = W2·h + b2`,
`y = denormalize(y')`; affine (de)normalisation, no clamping. -/
def evalNetwork (net : Network) (x : List ℚ) : ℚ :=
  let xn := ((x.zip net.inpSlope).map (fun p => p.1 * p.2)).zipWith (· + ·) net.inpOffset
  let h := (net.w1.zip net.b1).map (fun rb => tanhQ (dotQ rb.1 xn + rb.2))
  (dotQ net.w2 h + net.b2) * net.outSlope + net.outOffset

/-- Modelled from the spec: per-sensor/algorithm options dictionary built by
`dictionariesSL2P.make_collection_options` (not under `src/`).  Fields mirror
the keys `makeProductCollection` reads: the archive name, the cloud-cover
metadata property name, the ancillary land-cover partition collection, the
per-band input domain table, and the estimate/uncertainty network banks
(`Collection_SL2P` / `Collection_SL2Perrors`, already parsed into per-variable
lists of per-partition-class networks, as `toolsNets.makeNetVars` would). -/
structure ColOptions where
  name : String
  cloudcoverProp : String
  partition : List Image
  sl2pDomain : List (ℚ × ℚ)
  numVariables : Nat
  collectionSL2P : List (List Network)
  collectionSL2Perrors : List (List Network)
deriving DecidableEq

/-- Modelled from the spec: per-variable/sensor network options built by
`dictionariesSL2P.make_net_options` (not under `src/`): the ordered input
band names, their scale/offset tables, and the 1-based index of the target
variable into the network banks. -/
structure NetOptions where
  inputBands : List String
  inputScaling : List ℚ
  inputOffset : List ℚ
  variableNum : Nat
deriving DecidableEq

/-- Mosaic of an image collection (`ee.ImageCollection.mosaic`, backend op):
one image whose single band takes, at each pixel, the value of the last
image in the list with an unmasked value there (later images are on top). -/
def mosaic (imgs : List Image) : Image :=
  let n := (imgs.map numPixOf).foldr max 0
  let nm := match imgs.head? with
    | some i => match i.bands.head? with
      | some nb => nb.1
      | none => "partition"
    | none => "partition"
  let vs := (List.range n).map (fun p => imgs.reverse.findSome? (fun i => firstBandVal i p))
  { bands := [(nm, { vals := vs, proj := 0, scale := 0 })]
    date := 0
    meta := []
    cal := []
    footprint := imgs.foldr (fun i acc => i.footprint ++ acc) []
    ops := [Op.mosaic] }

/-- Embeds `.rename(name)` on a single-band image: every band of the image
takes the given name. -/
def renameAll (name : String) (image : Image) : Image :=
  { image with
    bands := image.bands.map (fun nb => (name, nb.2))
    ops := image.ops ++ [Op.renameBands name] }

/-- Embeds `image.addBands(extra)`: the extra image's bands are appended. -/
def addBands (extra : Image) (image : Image) : Image :=
  { image with
    bands := image.bands ++ extra.bands
    ops := image.ops ++ [Op.addBands (bandNames extra)] }

/-- Embeds `image.select(names)`: keep only the named bands, in the given
order (missing names select nothing). -/
def selectBands (names : List String) (image : Image) : Image :=
  { image with
    bands := names.filterMap
      (fun n => (image.bands.find? (fun nb => nb.1 = n)).map (fun nb => (n, nb.2)))
    ops := image.ops ++ [Op.select names] }

/-- Embeds the chain
`setDefaultProjection(crs=first band's projection)
 .reduceResolution(reducer=ee.Reducer.mean(), maxPixels=1024)
 .reproject(crs=proj, scale=scale)`
(LEAF.py lines 94–95, 107–108, 129–131).  The backend's area-weighted
averaging arithmetic is opaque to the repository; the embedding records the
mean reducer in the provenance and sets every band's projection and scale. -/
def resampleTo (proj scale : Nat) (image : Image) : Image :=
  { image with
    bands := image.bands.map (fun nb => (nb.1, { nb.2 with proj := proj, scale := scale }))
    ops := image.ops ++
      [Op.setDefaultProjectionFirst, Op.reduceResolution Reducer.mean,
       Op.reproject proj scale] }

/-- Modelled from the spec: `tools.MaskClear` (`toolsUtils` is not under
`src/`): apply the sensor-specific clear-sky mask — pixels whose cloud-mask
band is present and nonzero are masked in every band. -/
def MaskClear (image : Image) : Image :=
  let m := maskPixels (fun p =>
    match bandValAt image "cloudmask" p with
    | some q => decide (q ≠ 0)
    | none => false) image
  { m with ops := image.ops ++ [Op.maskClear] }

/-- Modelled from the spec: `eoImage.attach_Date` (not under `src/`): attach
a constant per-pixel band holding the acquisition date. -/
def attach_Date (image : Image) : Image :=
  { image with
    bands := image.bands ++
      [("date", { vals := List.replicate (numPixOf image) (some (image.date : ℚ))
                  proj := 0
                  scale := 0 })]
    ops := image.ops ++ [Op.attachDate] }

/-- Modelled from the spec: `eoImage.attach_LonLat` (not under `src/`):
attach per-pixel longitude and latitude bands (pixel coordinates stand in
for the backend's geographic coordinates). -/
def attach_LonLat (image : Image) : Image :=
  { image with
    bands := image.bands ++
      [("longitude", { vals := (List.range (numPixOf image)).map (fun p => some (p : ℚ))
                       proj := 0
                       scale := 0 }),
       ("latitude", { vals := (List.range (numPixOf image)).map (fun p => some (p : ℚ))
                      proj := 0
                      scale := 0 })]
    ops := image.ops ++ [Op.attachLonLat] }

/-- Modelled from the spec: `tools.addGeometry` (not under `src/`): attach
request-specific geometry metadata; only the provenance is observable here. -/
def addGeometry (image : Image) : Image :=
  { image with ops := image.ops ++ [Op.addGeometry] }

/-- Modelled from the spec: `tools.MaskLand` (not under `src/`): pixels whose
ancillary land-cover value indicates non-land (class 0, or no land-cover
datum) are set to no-data across all bands. -/
def MaskLand (co : ColOptions) (image : Image) : Image :=
  let lc := mosaic co.partition
  let m := maskPixels (fun p =>
    match firstBandVal lc p with
    | some q => decide (q = 0)
    | none => true) image
  { m with ops := image.ops ++ [Op.maskLand] }

/-- Modelled from the spec: `toolsUtils.scaleBands` (not under `src/`): each
input band is affine-transformed by `scaled = raw*scale + offset` using the
per-band tables; other bands are untouched. -/
def scaleBands (inputBands : List String) (inputScaling inputOffset : List ℚ)
    (image : Image) : Image :=
  { image with
    bands := image.bands.map (fun nb =>
      match inputBands.indexOf? nb.1 with
      | some i =>
          (nb.1, { nb.2 with vals := nb.2.vals.map (fun v =>
              v.map (fun q => q * inputScaling.getD i 1 + inputOffset.getD i 0)) })
      | none => nb)
    ops := image.ops ++ [Op.scaleBands] }

/-- Modelled from the spec: `toolsUtils.invalidInput` (not under `src/`):
add a quality-control band `QC` whose value at a pixel is 1 when any input
band value there falls outside its configured `[min,max]` domain range,
0 when all inputs are present and in domain, and masked when any input is
masked. -/
def invalidInput (sl2pDomain : List (ℚ × ℚ)) (inputBands : List String)
    (image : Image) : Image :=
  let flag : Nat → Option ℚ := fun p =>
    (inputBands.enum.foldr (fun ib acc =>
      match acc, bandValAt image ib.2 p with
      | some b, some v =>
          let d := sl2pDomain.getD ib.1 (v, v)
          some (b || decide (v < d.1) || decide (d.2 < v))
      | _, _ => none) (some false)).map (fun b => if b then 1 else 0)
  { image with
    bands := image.bands ++
      [("QC", { vals := (List.range (numPixOf image)).map flag, proj := 0, scale := 0 })]
    ops := image.ops ++ [Op.invalidInput] }

/-- Partition-class code of a band value: the value must be a nonnegative
integer to act as a class selector. -/
def classOf (q : ℚ) : Option Nat :=
  if q.den = 1 ∧ 0 ≤ q.num then some q.num.toNat else none

/-- Vector of the image's input-band values at pixel `p`; `none` when any
input band is masked or absent there. -/
def inputVec (inputBands : List String) (image : Image) (p : Nat) : Option (List ℚ) :=
  inputBands.foldr (fun b acc =>
    match bandValAt image b p, acc with
    | some v, some l => some (v :: l)
    | _, _ => none) (some [])

/-- Modelled from the spec: per-pixel dispatch of the Partitioned Network
Dispatcher (§4.2): read the pixel's class from the partition image, select
the class's network from the bank (classes are 1-based; class 0 = "not
land" and any class outside the bank's range yield no-data), and evaluate
it on the pixel's input-band vector. -/
def dispatchAt (varNets : List Network) (partition : Image)
    (inputBands : List String) (image : Image) (p : Nat) : Option ℚ :=
  match firstBandVal partition p with
  | none => none
  | some q =>
    match classOf q with
    | none => none
    | some k =>
      if 1 ≤ k ∧ k ≤ varNets.length then
        match inputVec inputBands image p with
        | some x => some (evalNetwork (varNets.getD (k - 1) defaultNetwork) x)
        | none => none
      else none

/-- Modelled from the spec: `toolsNets.wrapperNNets` (not under `src/`):
apply the Partitioned Network Dispatcher to one image, producing a
single-band image named after the target variable (for mode `"estimate"`)
or `mode ++ variable` (for mode `"error"`), evaluated over the partition
image's pixel grid. -/
def wrapperNNets (nets : List (List Network)) (partition : Image)
    (no : NetOptions) (mode variableName : String) (image : Image) : Image :=
  let varNets := nets.getD (no.variableNum - 1) []
  let outName := if mode = "estimate" then variableName else mode ++ variableName
  let n := numPixOf partition
  let vs := (List.range n).map (fun p => dispatchAt varNets partition no.inputBands image p)
  { image with
    bands := [(outName, { vals := vs, proj := 0, scale := 0 })]
    ops := image.ops ++ [Op.applyNets mode variableName] }

/-- The Geospatial Backend's stored state consumed by the repository: the
image archives addressed by collection name (`ee.ImageCollection(name)`),
the vector-buffer operation, and — modelled from the spec, since
`dictionariesSL2P` is not under `src/` — the configuration dictionaries
`make_collection_options` (keyed by algorithm then collection name) and
`make_net_options` (keyed by variable then collection name). -/
structure Env where
  archives : String → List Image
  buffer : Nat → List Nat → List Nat
  collectionOptions : String → String → ColOptions
  netOpts : String → String → NetOptions

/-- Argument record of one `makeProductCollection` invocation
(LEAF.py lines 51–62). -/
structure Args where
  env : Env
  co : ColOptions
  no : NetOptions
  variableName : String
  mapBounds : List Nat
  startDate : Int
  endDate : Int
  rangeStart : Nat
  rangeEnd : Nat
  rangeField : String
  maxCloudcover : ℚ
  inputScale : Nat
  outputScale : Nat

/-- Embeds LEAF.py lines 76–86: filter the source archive by bounds, date
range, cloud-cover metadata and calendar sub-range, cap the result at 5000
images, then clip, cloud-mask and attach date/lon-lat/geometry per image. -/
def makeInputCollection (a : Args) : List Image :=
  (((((((a.env.archives a.co.name).filter (passesBounds a.mapBounds)).filter
      (passesDate a.startDate a.endDate)).filter
      (passesMetadataLt a.co.cloudcoverProp a.maxCloudcover)).filter
      (passesCalendarRange a.rangeStart a.rangeEnd a.rangeField)).take 5000).map
      (fun image => addGeometry (attach_LonLat (attach_Date (MaskClear
        (clip a.mapBounds image))))))

/-- Embeds LEAF.py line 93: the canonical working projection, read from the
designated reference input band (`netOptions["inputBands"][3]`) of the first
image of the filtered collection. -/
def refProjection (a : Args) : Nat :=
  match (makeInputCollection a).head? with
  | some image =>
    match image.bands.find? (fun nb => nb.1 = a.no.inputBands.getD 3 "") with
    | some nb => nb.2.proj
    | none => 0
  | none => 0

/-- Embeds LEAF.py lines 94–98: resample every image to the working
projection at the input scale with the mean reducer, then mask non-land
pixels and scale the input bands into network domain. -/
def maskedScaledCollection (a : Args) : List Image :=
  ((makeInputCollection a).map (resampleTo (refProjection a) a.inputScale)).map
    (fun image => scaleBands a.no.inputBands a.no.inputScaling a.no.inputOffset
      (MaskLand a.co image))

/-- Embeds LEAF.py line 101: the shared partition image — the ancillary
land-cover collection filtered to the region, mosaicked, clipped and renamed
`partition`; computed once per invocation. -/
def partitionImage (a : Args) : Image :=
  renameAll "partition" (clip a.mapBounds (mosaic ((a.co.partition).filter
    (passesBounds a.mapBounds))))

/-- Embeds `ee.ImageCollection.combine` (LEAF.py lines 110, 128): copy the
primary collection, adding the bands of the matching (same-index) secondary
image where one exists; the result keeps the primary's length, and the
provenance of both parents is concatenated. -/
def combineC : List Image → List Image → List Image
  | [], _ => []
  | pimg :: ps, [] =>
      { pimg with ops := pimg.ops ++ [Op.combine] } :: combineC ps []
  | pimg :: ps, simg :: ss =>
      { pimg with
        bands := pimg.bands ++ simg.bands
        ops := pimg.ops ++ simg.ops ++ [Op.combine] } :: combineC ps ss

/-- Embeds LEAF.py lines 102–110: attach the partition band to every image
and, for the Sentinel-2 archive, align the s2cloudless cloud-probability
collection into the working projection and combine it in. -/
def enrichedCollection (a : Args) : List Image :=
  let withPartition := (maskedScaledCollection a).map (addBands (partitionImage a))
  if a.co.name.startsWith "COPERNICUS/S2_SR" then
    let s2col := (((a.env.archives "COPERNICUS/S2_CLOUD_PROBABILITY").filter
        (passesBounds a.mapBounds)).filter (passesDate a.startDate a.endDate)).map
      (fun image => renameAll "s2cloudless_probability"
        (resampleTo (refProjection a) a.inputScale image))
    combineC withPartition s2col
  else withPartition

/-- Embeds LEAF.py line 117: the conditioned collection fed to the network
dispatcher — the enriched collection with the quality-control domain flag
attached. -/
def conditionedCollection (a : Args) : List Image :=
  (enrichedCollection a).map (invalidInput a.co.sl2pDomain a.no.inputBands)

/-- Embeds LEAF.py line 126: the estimate-network dispatch, consuming the
shared partition image. -/
def estimateCollection (a : Args) : List Image :=
  (conditionedCollection a).map
    (wrapperNNets a.co.collectionSL2P (partitionImage a) a.no "estimate" a.variableName)

/-- Embeds LEAF.py line 127: the uncertainty-network dispatch, consuming the
same shared partition image. -/
def uncertaintyCollection (a : Args) : List Image :=
  (conditionedCollection a).map
    (wrapperNNets a.co.collectionSL2Perrors (partitionImage a) a.no "error" a.variableName)

/-- Embeds LEAF.py lines 119–123: the essential input bands carried forward
with the outputs, read off the first conditioned image (the s2cloudless
probability only when that band is present). -/
def keepBandNames (a : Args) : List String :=
  match (conditionedCollection a).head? with
  | some image =>
    if "s2cloudless_probability" ∈ bandNames image then
      ["date", "QC", "longitude", "latitude", "s2cloudless_probability"]
    else ["date", "QC", "longitude", "latitude"]
  | none => ["date", "QC", "longitude", "latitude"]

/-- Embeds LEAF.py lines 119–131: carry forward the essential bands, combine
the estimate and uncertainty layers, and reproject the combined result to
the output scale with the mean reducer. -/
def networkOutputs (a : Args) : List Image :=
  let outputs0 := (conditionedCollection a).map (selectBands (keepBandNames a))
  let outs := combineC (combineC outputs0 (estimateCollection a))
    ((uncertaintyCollection a).map (selectBands ["error" ++ a.variableName]))
  outs.map (resampleTo (refProjection a) a.outputScale)

/-- Embeds `makeProductCollection` (LEAF.py lines 51–137): if the filtered
input collection is empty the empty collection is returned; when the
requested variable is raw reflectance the enriched collection is returned
as-is; otherwise the network outputs are produced.  The source function
contains no raise statement, so the embedding is total. -/
def makeProductCollection (a : Args) : List Image :=
  if 0 < (makeInputCollection a).length then
    if a.variableName = "Surface_Reflectance" then enrichedCollection a
    else networkOutputs a
  else []

/-- One sampled-pixel output record (`ee.Feature`): named properties (one
per band of the sampled image) and an optional geometry. -/
structure Feature where
  props : List (String × Option ℚ)
  geom : Option (List Nat)
deriving DecidableEq

/-- Sampling mode of `ee.Image.sample`: a fixed pixel count (`numPixels`)
or a sampling fraction (`factor`). -/
inductive SampleMode
  | count (n : Nat)
  | fraction (f : ℚ)
deriving DecidableEq

/-- Embeds `ee.Image.sample(region=…, projection=…, scale=…,
geometries=…, dropNulls=…, numPixels=…/factor=…)` (backend op).  Candidate
pixels are those of the region; with `dropNulls` a pixel is dropped when any
band is masked there.  The backend's pseudo-random subset selection is
opaque to the repository and is modelled as a deterministic prefix of the
candidates: the first `n` pixels for a count, the first `⌊f·candidates⌋`
for a fraction.  With `geometries = false` the output features carry no
geometry. -/
def eeSample (region : List Nat) (projUsed scale : Nat)
    (geometries dropNulls : Bool) (mode : SampleMode) (image : Image) : List Feature :=
  let _ := (projUsed, scale)
  let candidates :=
    if dropNulls then
      region.filter (fun p => image.bands.all (fun nb => (nb.2.vals.getD p none).isSome))
    else region
  let chosen :=
    match mode with
    | SampleMode.count n => candidates.take n
    | SampleMode.fraction f => candidates.take (f * candidates.length).floor.toNat
  chosen.map (fun p =>
    { props := image.bands.map (fun nb => (nb.1, nb.2.vals.getD p none))
      geom := if geometries then some [p] else none })

/-- Projection parameter of the sampling call: the source takes it from the
5th band (`image.slice(4,5)`), as the first four bands may hold ancillary
layers in other projections (LEAF.py lines 148–154). -/
def projOfFifthBand (image : Image) : Nat :=
  match image.bands.getD 4 ("", { vals := [], proj := 0, scale := 0 }) with
  | nb => nb.2.proj

/-- Embeds `sampleProductCollection` (LEAF.py lines 140–156): sample every
product image within the region's geometry — with a fixed pixel count when
`numPixels > 0`, with the sampling fraction otherwise — dropping null
pixels and omitting geometries, and flatten the per-image feature lists. -/
def sampleProductCollection (productCollection : List Image)
    (sampleRegion : List Nat) (outputScale : Nat) (factor : ℚ)
    (numPixels : Nat) : List Feature :=
  if 0 < numPixels then
    (productCollection.map (fun image =>
      eeSample sampleRegion (projOfFifthBand image) outputScale false true
        (SampleMode.count numPixels) image)).flatten
  else
    (productCollection.map (fun image =>
      eeSample sampleRegion (projOfFifthBand image) outputScale false true
        (SampleMode.fraction factor) image)).flatten

/-- A GEE remap lookup (`ee.Image.remap(from, to, default)`): the value's
index in `fromL` selects the entry of `toL`, anything unmatched maps to the
default. -/
def eeRemap (fromL toL : List Int) (dflt : Int) (x : Int) : Int :=
  match fromL.indexOf? x with
  | some i => toL.getD i dflt
  | none => dflt

/-- Embeds `.remap(from, to, default)` applied to a band's rational values:
integral values go through the lookup, anything non-integral maps to the
default. -/
def remapBand (fromL toL : List Int) (dflt : Int) (image : Image) : Image :=
  { image with bands := image.bands.map (fun nb =>
      (nb.1, { nb.2 with vals := nb.2.vals.map (fun v => v.map (fun q =>
        if q.den = 1 then ((eeRemap fromL toL dflt q.num : Int) : ℚ)
        else ((dflt : Int) : ℚ))) })) }

/-- Embeds `.toUint8()`: clamp integral values into `[0, 255]`. -/
def toUint8 (image : Image) : Image :=
  { image with
    bands := image.bands.map (fun nb =>
      (nb.1, { nb.2 with vals := nb.2.vals.map (fun v => v.map (fun q =>
        if q < 0 then 0 else if 255 < q then 255 else q)) }))
    ops := image.ops ++ [Op.toUint8] }

/-- Land-cover class codes of the Sentinel-2 current partition constructor's
remap table (SL2PV1ENF.py line 50). -/
def s2_remapFrom : List Int :=
  [0, 20, 30, 40, 50, 60, 70, 80, 90, 100, 111, 112, 113, 114, 115, 116,
   121, 122, 123, 124, 125, 126, 200]

/-- Partition indices of the Sentinel-2 current partition constructor's
remap table (SL2PV1ENF.py line 50). -/
def s2_remapTo : List Int :=
  [0, 8, 10, 15, 17, 16, 19, 18, 14, 13, 1, 3, 1, 5, 6, 6, 2, 4, 2, 5, 6, 6, 18]

/-- Land-cover class codes of the Landsat-8 current partition constructor's
remap table (SL2PV1ENF.py line 98). -/
def l8_remapFrom : List Int :=
  [0, 20, 30, 40, 50, 60, 70, 80, 90, 100, 111, 112, 113, 114, 115, 116,
   121, 122, 123, 124, 125, 126, 200]

/-- Partition indices of the Landsat-8 current partition constructor's remap
table (SL2PV1ENF.py line 98). -/
def l8_remapTo : List Int :=
  [0, 8, 10, 15, 17, 16, 19, 18, 14, 13, 1, 3, 1, 5, 6, 6, 2, 4, 2, 5, 6, 6, 18]

/-- Land-cover class codes of the Landsat-9 current partition constructor's
remap table (SL2PV1ENF.py line 146). -/
def l9_remapFrom : List Int :=
  [0, 20, 30, 40, 50, 60, 70, 80, 90, 100, 111, 112, 113, 114, 115, 116,
   121, 122, 123, 124, 125, 126, 200]

/-- Partition indices of the Landsat-9 current partition constructor's remap
table (SL2PV1ENF.py line 146). -/
def l9_remapTo : List Int :=
  [0, 8, 10, 15, 17, 16, 19, 18, 14, 13, 1, 3, 1, 5, 6, 6, 2, 4, 2, 5, 6, 6, 18]

/-- Land-cover class codes of the Landsat-7 current partition constructor's
remap table (SL2PV1ENF.py line 196). -/
def l7_remapFrom : List Int :=
  [0, 20, 30, 40, 50, 60, 70, 80, 90, 100, 111, 112, 113, 114, 115, 116,
   121, 122, 123, 124, 125, 126, 200]

/-- Partition indices of the Landsat-7 current partition constructor's remap
table (SL2PV1ENF.py line 196). -/
def l7_remapTo : List Int :=
  [0, 8, 10, 15, 17, 16, 19, 18, 14, 13, 1, 3, 1, 5, 6, 6, 2, 4, 2, 5, 6, 6, 18]

/-- Embeds `s2_createImageCollection_partition` (SL2PV1ENF.py lines 46–50):
the 2020 NALCMS image renamed `partition`, merged with the Proba-V global
land-cover collection remapped through the fixed lookup table (default 0)
and cast to uint8. -/
def s2_createImageCollection_partition (env : Env) : List Image :=
  ((env.archives "USGS/NLCD_RELEASES/2020_REL/NALCMS").map (renameAll "partition")) ++
  ((env.archives "COPERNICUS/Landcover/100m/Proba-V-C3/Global").map (fun image =>
    renameAll "partition" (toUint8 (remapBand s2_remapFrom s2_remapTo 0
      (selectBands ["discrete_classification"] image)))))

/-- Embeds `l8_createImageCollection_partition` (SL2PV1ENF.py lines 94–98). -/
def l8_createImageCollection_partition (env : Env) : List Image :=
  ((env.archives "USGS/NLCD_RELEASES/2020_REL/NALCMS").map (renameAll "partition")) ++
  ((env.archives "COPERNICUS/Landcover/100m/Proba-V-C3/Global").map (fun image =>
    renameAll "partition" (toUint8 (remapBand l8_remapFrom l8_remapTo 0
      (selectBands ["discrete_classification"] image)))))

/-- Embeds `l9_createImageCollection_partition` (SL2PV1ENF.py lines 142–146). -/
def l9_createImageCollection_partition (env : Env) : List Image :=
  ((env.archives "USGS/NLCD_RELEASES/2020_REL/NALCMS").map (renameAll "partition")) ++
  ((env.archives "COPERNICUS/Landcover/100m/Proba-V-C3/Global").map (fun image =>
    renameAll "partition" (toUint8 (remapBand l9_remapFrom l9_remapTo 0
      (selectBands ["discrete_classification"] image)))))

/-- Embeds `l7_createImageCollection_partition` (SL2PV1ENF.py lines 192–196). -/
def l7_createImageCollection_partition (env : Env) : List Image :=
  ((env.archives "USGS/NLCD_RELEASES/2020_REL/NALCMS").map (renameAll "partition")) ++
  ((env.archives "COPERNICUS/Landcover/100m/Proba-V-C3/Global").map (fun image =>
    renameAll "partition" (toUint8 (remapBand l7_remapFrom l7_remapTo 0
      (selectBands ["discrete_classification"] image)))))

/-- One site feature of a GEE vector feature collection: its acquisition
window metadata (`system:time_start`, optional `system:time_end`), its
geometry, and its string properties (e.g. `system:index`). -/
structure Site where
  timeStart : Int
  timeEnd : Option Int
  geom : List Nat
  props : List (String × String)
deriving DecidableEq

/-- Embeds `site.get(prop)` for string properties. -/
def siteGet (site : Site) (prop : String) : Option String :=
  (site.props.find? (fun kv => kv.1 = prop)).map (fun kv => kv.2)

/-- Insertion step of the descending `sort('system:time_start', False)`. -/
def insertDesc (s : Site) : List Site → List Site
  | [] => [s]
  | t :: ts => if t.timeStart ≤ s.timeStart then s :: t :: ts else t :: insertDesc s ts

/-- Embeds `ee.FeatureCollection.sort('system:time_start', False)`:
features in descending acquisition-time order. -/
def sortSitesDesc : List Site → List Site
  | [] => []
  | s :: ss => insertDesc s (sortSitesDesc ss)

/-- Embeds `createDates` (LEAF.py lines 266–284) on the numeric-timestamp
path: the feature's time window buffered by `bufferTemporalSize`, the end
date falling back to `startDate - b0 + b1` when `system:time_end` is absent,
and one day added to the returned end date.  Time is in abstract day
units. -/
def createDates (site : Site) (b0 b1 : Int) : Int × Int :=
  let startDate := site.timeStart + b0
  let endDate :=
    match site.timeEnd with
    | some t => t + b1
    | none => startDate - b0 + b1
  (startDate, endDate + 1)

/-- Python truthiness of a GEE client object (`if outputFeatureCollection:`,
`if productCollection:`): `ee.FeatureCollection` and `ee.ImageCollection`
define neither `__bool__` nor `__len__`, so the object is always truthy. -/
def pyTruthy {α : Type} (_ : α) : Bool := true

/-- Embeds `getSamples` (LEAF.py lines 201–243): buffer the site if
requested, build the product collection for its geometry, and sample it —
falling back to the feature collection made of the bare site geometry when
the product collection is empty. -/
def getSamples (env : Env) (site : Site) (variableName : String)
    (co : ColOptions) (no : NetOptions) (maxCloudcover : ℚ)
    (bufferSpatialSize : Nat) (inputScale : Nat) (startDate endDate : Int)
    (rangeStart rangeEnd : Nat) (rangeField : String) (outputScale : Nat)
    (factor : ℚ) (numPixels : Nat) : List Feature :=
  let site :=
    if 0 < bufferSpatialSize then
      { site with geom := env.buffer bufferSpatialSize site.geom }
    else site
  let outputFeatureCollection : List Feature := [{ props := [], geom := some site.geom }]
  let productCollection := makeProductCollection
    ⟨env, co, no, variableName, site.geom, startDate, endDate, rangeStart,
     rangeEnd, rangeField, maxCloudcover, inputScale, outputScale⟩
  if pyTruthy productCollection then
    if 0 < productCollection.length then
      sampleProductCollection productCollection site.geom outputScale factor numPixels
    else outputFeatureCollection
  else outputFeatureCollection

/-- Embeds `getImages` (LEAF.py lines 159–197): buffer the site if requested
and return the product collection for its geometry. -/
def getImages (env : Env) (site : Site) (variableName : String)
    (co : ColOptions) (no : NetOptions) (maxCloudcover : ℚ)
    (bufferSpatialSize : Nat) (inputScale : Nat) (startDate endDate : Int)
    (rangeStart rangeEnd : Nat) (rangeField : String) (outputScale : Nat) :
    List Image :=
  let site :=
    if 0 < bufferSpatialSize then
      { site with geom := env.buffer bufferSpatialSize site.geom }
    else site
  makeProductCollection
    ⟨env, co, no, variableName, site.geom, startDate, endDate, rangeStart,
     rangeEnd, rangeField, maxCloudcover, inputScale, outputScale⟩

/-- Observable events of an orchestration run: backend materialisations of
a site's feature count (`sampleRecords.size().getInfo()`), per-shard
sampling / image production, and export-task starts (`task.start()`). -/
inductive Ev
  | sizeMaterialized
  | shardSampled
  | shardImaged
  | exportStarted
deriving DecidableEq

/-- Python exceptions the orchestration layer can raise: the explicit
`ValueError`, an unbound-name reference (`NameError` /
`UnboundLocalError`), a `TypeError` (string concatenation with `None`), and
a backend error surfaced by a materialisation call. -/
inductive PyErr
  | valueError (msg : String)
  | nameError (name : String)
  | typeError
  | eeError
deriving DecidableEq

/-- Outcome of one iteration of a Python `for` body: a `return`, an
uncaught exception, or falling through to the next iteration. -/
inductive LoopOut
  | ret (b : Bool)
  | raised (e : PyErr)
  | next
deriving DecidableEq

/-- A Python `for` loop over the site list: the body's `return` or uncaught
exception stops the loop; falling off the end of an exhausted loop leaves
the function to return `None` unless a later statement returns. -/
def runSites (body : List Site → List Ev × LoopOut) :
    List (List Site) → List Ev × Except PyErr (Option Bool)
  | [] => ([], Except.ok none)
  | s :: rest =>
    match body s with
    | (evs, LoopOut.ret b) => (evs, Except.ok (some b))
    | (evs, LoopOut.raised e) => (evs, Except.error e)
    | (evs, LoopOut.next) =>
      let r := runSites body rest
      (evs ++ r.1, r.2)

/-- A Python `for` loop over feature indices: an uncaught exception stops
the loop, otherwise iterations accumulate events. -/
def featureLoop (body : Nat → List Ev × Option PyErr) :
    List Nat → List Ev × Option PyErr
  | [] => ([], none)
  | n :: rest =>
    match body n with
    | (evs, some e) => (evs, some e)
    | (evs, none) =>
      let r := featureLoop body rest
      (evs ++ r.1, r.2)

/-- Embeds the feature-range clamping of LEAF.py lines 358–359: the upper
feature index is the range's bound (`none` models the `np.nan` default)
clamped to the site's feature count. -/
def featureEnd (hi : Option Nat) (size : Nat) : Nat :=
  match hi with
  | some v => min v size
  | none => size

/-- Argument record shared by the orchestration entry points `sampleSites`
and `imageSites` (LEAF.py lines 302–321, 468–488).  The embedding covers the
numeric `bufferTemporalSize` configuration, in which `defaultDate` is false,
each feature's dates come from `createDates`, and the shard table is the
single interval per feature. -/
structure SiteArgs where
  env : Env
  imageCollectionName : String
  outputPath : Option String
  algorithm : String
  variableName : String
  featureRange : Nat × Option Nat
  maxCloudcover : ℚ
  outputScale : Nat
  exportDevice : Option String
  prefixProperty : String
  inputScale : Nat
  bufferSpatialSize : Nat
  subsamplingFraction : ℚ
  numPixels : Nat
  bufferTemporalSize : Int × Int
  calendarRange : Nat × Nat × String

/-- Embeds one shard iteration of `sampleSites` (LEAF.py lines 390–455):
draw the shard's samples, then dispatch on the export device.  The
`'Client'` branch reads the never-initialised local `samplesDF` and the
`'Asset'` branch's export parameters read the unbound name
`sampleFeatureCollection` (LEAF.py line 443), so both raise; `'Drive'` and
`'CloudStorage'` build their parameters (a missing prefix property makes the
description concatenate `None`, a `TypeError`) and start the export task. -/
def sampleShard (sa : SiteArgs) (site : Site) (ds de : Int) :
    List Ev × Option PyErr :=
  let co := sa.env.collectionOptions sa.algorithm sa.imageCollectionName
  let no := sa.env.netOpts sa.variableName sa.imageCollectionName
  let outputFeatureCollection := getSamples sa.env site sa.variableName co no
    sa.maxCloudcover sa.bufferSpatialSize sa.inputScale ds (de + 1)
    sa.calendarRange.1 sa.calendarRange.2.1 sa.calendarRange.2.2
    sa.outputScale sa.subsamplingFraction sa.numPixels
  if pyTruthy outputFeatureCollection then
    match sa.exportDevice with
    | some "Client" => ([Ev.shardSampled], some (PyErr.nameError "samplesDF"))
    | some "Drive" =>
      match siteGet site sa.prefixProperty with
      | some _ => ([Ev.shardSampled, Ev.exportStarted], none)
      | none => ([Ev.shardSampled], some PyErr.typeError)
    | some "CloudStorage" =>
      match siteGet site sa.prefixProperty with
      | some _ => ([Ev.shardSampled, Ev.exportStarted], none)
      | none => ([Ev.shardSampled], some PyErr.typeError)
    | some "Asset" => ([Ev.shardSampled], some (PyErr.nameError "sampleFeatureCollection"))
    | _ => ([Ev.shardSampled], none)
  else ([Ev.shardSampled], none)

/-- Embeds one feature iteration of `sampleSites` (LEAF.py lines 368–409):
select the feature, derive its date window, and run the single shard.  An
out-of-range feature index (possible because the loop runs to
`featureRange[1] + 1`) surfaces as a backend error when `createDates`
materialises the missing element. -/
def sampleFeature (sa : SiteArgs) (records : List Site) (n : Nat) :
    List Ev × Option PyErr :=
  match records[n]? with
  | none => ([], some PyErr.eeError)
  | some site =>
    let d := createDates site sa.bufferTemporalSize.1 sa.bufferTemporalSize.2
    sampleShard sa site d.1 d.2

/-- Embeds the body of `sampleSites`' loop over `siteList` (LEAF.py lines
350–461): sort the site's features, materialise the feature count twice (the
progress print and the range clamp), check `exportDevice`, loop over the
feature range, and — still inside the `siteList` loop — `return True`. -/
def sampleSitesBody (sa : SiteArgs) (input : List Site) : List Ev × LoopOut :=
  if sa.exportDevice = none then
    ([Ev.sizeMaterialized, Ev.sizeMaterialized], LoopOut.raised
      (PyErr.valueError "Output Drive/Asset Folder/CloudStorage Path missing."))
  else
    match featureLoop (sampleFeature sa (sortSitesDesc input))
        (List.range' sa.featureRange.1
          (featureEnd sa.featureRange.2 (sortSitesDesc input).length + 1 -
            sa.featureRange.1)) with
    | (evs, some e) =>
        ([Ev.sizeMaterialized, Ev.sizeMaterialized] ++ evs, LoopOut.raised e)
    | (evs, none) =>
        ([Ev.sizeMaterialized, Ev.sizeMaterialized] ++ evs, LoopOut.ret true)

/-- Embeds `sampleSites` (LEAF.py lines 302–461).  The `return True` of the
source sits inside the loop over `siteList`, so the loop body ends in
`LoopOut.ret`; with an empty `siteList` the function falls through and
returns `None`. -/
def sampleSites (sa : SiteArgs) (siteList : List (List Site)) :
    List Ev × Except PyErr (Option Bool) :=
  runSites (sampleSitesBody sa) siteList

/-- Embeds one shard iteration of `imageSites` (LEAF.py lines 558–636):
produce the shard's image collection, then dispatch on the export device;
all three device branches reference only bound names, build their parameters
and start the export tasks. -/
def imageShard (sa : SiteArgs) (site : Site) (ds de : Int) :
    List Ev × Option PyErr :=
  let co := sa.env.collectionOptions sa.algorithm sa.imageCollectionName
  let no := sa.env.netOpts sa.variableName sa.imageCollectionName
  let outputImageCollection := getImages sa.env site sa.variableName co no
    sa.maxCloudcover sa.bufferSpatialSize sa.inputScale ds (de + 1)
    sa.calendarRange.1 sa.calendarRange.2.1 sa.calendarRange.2.2
    sa.outputScale
  if pyTruthy outputImageCollection then
    match sa.exportDevice with
    | some "Drive" =>
      match siteGet site sa.prefixProperty with
      | some _ => ([Ev.shardImaged, Ev.exportStarted], none)
      | none => ([Ev.shardImaged], some PyErr.typeError)
    | some "CloudStorage" =>
      match siteGet site sa.prefixProperty with
      | some _ => ([Ev.shardImaged, Ev.exportStarted], none)
      | none => ([Ev.shardImaged], some PyErr.typeError)
    | some "Asset" =>
      match siteGet site sa.prefixProperty with
      | some _ => ([Ev.shardImaged, Ev.exportStarted], none)
      | none => ([Ev.shardImaged], some PyErr.typeError)
    | _ => ([Ev.shardImaged], none)
  else ([Ev.shardImaged], none)

/-- Embeds one feature iteration of `imageSites` (LEAF.py lines 536–575),
analogous to `sampleFeature`. -/
def imageFeature (sa : SiteArgs) (records : List Site) (n : Nat) :
    List Ev × Option PyErr :=
  match records[n]? with
  | none => ([], some PyErr.eeError)
  | some site =>
    let d := createDates site sa.bufferTemporalSize.1 sa.bufferTemporalSize.2
    imageShard sa site d.1 d.2

/-- Embeds the body of `imageSites`' loop over `siteList` (LEAF.py lines
518–639): sort, materialise the feature count twice, check `outputPath`,
loop over the feature range, and fall through to the next site (the
source's `return True` sits after this loop). -/
def imageSitesBody (sa : SiteArgs) (input : List Site) : List Ev × LoopOut :=
  if sa.outputPath = none then
    ([Ev.sizeMaterialized, Ev.sizeMaterialized], LoopOut.raised
      (PyErr.valueError "Output Drive/Asset Folder/CloudStorage Path missing."))
  else
    match featureLoop (imageFeature sa (sortSitesDesc input))
        (List.range' sa.featureRange.1
          (featureEnd sa.featureRange.2 (sortSitesDesc input).length + 1 -
            sa.featureRange.1)) with
    | (evs, some e) =>
        ([Ev.sizeMaterialized, Ev.sizeMaterialized] ++ evs, LoopOut.raised e)
    | (evs, none) =>
        ([Ev.sizeMaterialized, Ev.sizeMaterialized] ++ evs, LoopOut.next)

/-- Embeds `imageSites` (LEAF.py lines 468–640): its `return True` sits
after the loop over `siteList`, so every site is processed and a normal run
returns `True`. -/
def imageSites (sa : SiteArgs) (siteList : List (List Site)) :
    List Ev × Except PyErr (Option Bool) :=
  let r := runSites (imageSitesBody sa) siteList
  (r.1, r.2.map (fun _ => some true))

/-- Concrete configuration used by witnesses: an environment with empty
archives. -/
def envEmpty : Env :=
  { archives := fun _ => []
    buffer := fun _ g => g
    collectionOptions := fun _ _ =>
      { name := "TESTCOL", cloudcoverProp := "CLOUD_COVER", partition := []
        sl2pDomain := [], numVariables := 1, collectionSL2P := []
        collectionSL2Perrors := [] }
    netOpts := fun _ _ =>
      { inputBands := [], inputScaling := [], inputOffset := [], variableNum := 1 } }

/-- Concrete `makeProductCollection` arguments whose filtered input
collection is empty. -/
def argsEmpty : Args :=
  { env := envEmpty
    co := { name := "TESTCOL", cloudcoverProp := "CLOUD_COVER", partition := []
            sl2pDomain := [], numVariables := 1, collectionSL2P := []
            collectionSL2Perrors := [] }
    no := { inputBands := [], inputScaling := [], inputOffset := [], variableNum := 1 }
    variableName := "LAI"
    mapBounds := [0]
    startDate := 0
    endDate := 10
    rangeStart := 1
    rangeEnd := 12
    rangeField := "month"
    maxCloudcover := 100
    inputScale := 20
    outputScale := 30 }

/-- Concrete single-band image used by the C8 witness. -/
def imgW : Image :=
  { bands := [("b", { vals := [some 1, some 2], proj := 3, scale := 10 })]
    date := 0
    meta := []
    cal := []
    footprint := [0, 1]
    ops := [] }

/-- The operation list shared by every enriched image up to the partition
band attachment. -/
def enrichPrefix (refProj inScale : Nat) : List Op :=
  [Op.clip, Op.maskClear, Op.attachDate, Op.attachLonLat, Op.addGeometry,
   Op.setDefaultProjectionFirst, Op.reduceResolution Reducer.mean,
   Op.reproject refProj inScale, Op.maskLand, Op.scaleBands,
   Op.addBands ["partition"]]

/-- The trailing operations contributed by a combined s2cloudless image. -/
def s2TailOps (refProj inScale : Nat) : List Op :=
  [Op.setDefaultProjectionFirst, Op.reduceResolution Reducer.mean,
   Op.reproject refProj inScale, Op.renameBands "s2cloudless_probability",
   Op.combine]

/-! Concrete configurations for counterexamples and witnesses. -/
/-- Raw archive image used by concrete invocations: one input band `b`,
cloud-cover metadata below threshold, and an in-range calendar month. -/
def imgArch : Image :=
  { bands := [("b", { vals := [some 1, some 2], proj := 7, scale := 10 })]
    date := 5
    meta := [("CLOUD_COVER", 10)]
    cal := [("month", 6)]
    footprint := [0, 1]
    ops := [] }

/-- Land-cover tile used by concrete invocations: class 1 (land) at both
pixels. -/
def imgLC : Image :=
  { bands := [("partition", { vals := [some 1, some 1], proj := 9, scale := 100 })]
    date := 0
    meta := []
    cal := []
    footprint := [0, 1]
    ops := [] }

/-- A concrete single-input network. -/
def netCon : Network :=
  { inpSlope := [1], inpOffset := [0], w1 := [[1]], b1 := [0], w2 := [1], b2 := 0
    outSlope := 1, outOffset := 0 }

/-- Concrete collection options over the test archive, with one variable and
one partition-class network in each bank. -/
def coCon : ColOptions :=
  { name := "TESTCOL", cloudcoverProp := "CLOUD_COVER", partition := [imgLC]
    sl2pDomain := [(0, 100)], numVariables := 1
    collectionSL2P := [[netCon]], collectionSL2Perrors := [[netCon]] }

/-- Concrete network options: one input band. -/
def noCon : NetOptions :=
  { inputBands := ["b"], inputScaling := [1], inputOffset := [0], variableNum := 1 }

/-- Concrete environment: the test archive holds one image. -/
def envCon : Env :=
  { archives := fun n => if n = "TESTCOL" then [imgArch] else []
    buffer := fun _ g => g
    collectionOptions := fun _ _ => coCon
    netOpts := fun _ _ => noCon }

/-- Concrete raw-reflectance invocation with a non-empty filtered input
collection. -/
def argsSR : Args :=
  { env := envCon, co := coCon, no := noCon
    variableName := "Surface_Reflectance"
    mapBounds := [0, 1], startDate := 0, endDate := 10
    rangeStart := 1, rangeEnd := 12, rangeField := "month"
    maxCloudcover := 100, inputScale := 20, outputScale := 30 }

/-- The same concrete invocation for a network-applied variable. -/
def argsNN : Args := { argsSR with variableName := "LAI" }

/-- One operation occurs strictly before another in a provenance list. -/
def opBefore (l : List Op) (x y : Op) : Prop :=
  ∃ i j : Nat, i < j ∧ l[i]? = some x ∧ l[j]? = some y

/-- Concrete site feature for orchestration runs. -/
def siteW : Site :=
  { timeStart := 5, timeEnd := some 6, geom := [0]
    props := [("system:index", "a")] }

/-- Concrete orchestration arguments over the empty-archive environment
(`Drive` export, all destinations configured). -/
def saW : SiteArgs :=
  { env := envEmpty
    imageCollectionName := "TESTCOL"
    outputPath := some "folder"
    algorithm := "SL2P"
    variableName := "LAI"
    featureRange := (0, some 0)
    maxCloudcover := 100
    outputScale := 30
    exportDevice := some "Drive"
    prefixProperty := "system:index"
    inputScale := 20
    bufferSpatialSize := 0
    subsamplingFraction := 1
    numPixels := 0
    bufferTemporalSize := (0, 0)
    calendarRange := (1, 12, "month") }

instance instDecEqExcept {e a : Type} [DecidableEq e] [DecidableEq a] :
    DecidableEq (Except e a) := fun x y =>
  match x, y with
  | Except.ok u, Except.ok v =>
    if h : u = v then Decidable.isTrue (congrArg Except.ok h)
    else Decidable.isFalse (fun hc => h (Except.ok.inj hc))
  | Except.error u, Except.error v =>
    if h : u = v then Decidable.isTrue (congrArg Except.error h)
    else Decidable.isFalse (fun hc => h (Except.error.inj hc))
  | Except.ok _, Except.error _ => Decidable.isFalse (fun hc => Except.noConfusion hc)
  | Except.error _, Except.ok _ => Decidable.isFalse (fun hc => Except.noConfusion hc)

/-- Concrete orchestration arguments with the default `'Asset'` export
device. -/
def saAsset : SiteArgs := { saW with exportDevice := some "Asset" }

/-- Concrete orchestration arguments with a missing output path. -/
def saNoPath : SiteArgs := { saW with outputPath := none }

/-- Concrete orchestration arguments with a missing export device. -/
def saNoDev : SiteArgs := { saW with exportDevice := none }

/-- Empty default image for indexed lookups in witnesses. -/
def imgDefault : Image :=
  { bands := [], date := 0, meta := [], cal := [], footprint := [], ops := [] }

/-- First image of the concrete estimate dispatch. -/
def imgE : Image := (estimateCollection argsNN).getD 0 imgDefault

/-- First image of the concrete uncertainty dispatch. -/
def imgU : Image := (uncertaintyCollection argsNN).getD 0 imgDefault

/-- Estimate value at pixel 0 of the concrete run. -/
def yW : ℚ := (bandValAt imgE "LAI" 0).getD 0

/-- Uncertainty value at pixel 0 of the concrete run. -/
def zW : ℚ := (bandValAt imgU "errorLAI" 0).getD 0

/-! Helper lemmas about collection lengths. -/
theorem length_combineC (ps ss : List Image) : (combineC ps ss).length = ps.length := by
  induction ps generalizing ss with
  | nil => cases ss <;> simp [combineC]
  | cons p ps ih => cases ss <;> simp [combineC, ih]

theorem makeInputCollection_le (a : Args) : (makeInputCollection a).length ≤ 5000 := by
  unfold makeInputCollection
  simp [List.length_take]

theorem enrichedCollection_length (a : Args) :
    (enrichedCollection a).length = (makeInputCollection a).length := by
  unfold enrichedCollection maskedScaledCollection
  split <;> simp [length_combineC]

theorem networkOutputs_length (a : Args) :
    (networkOutputs a).length = (makeInputCollection a).length := by
  unfold networkOutputs conditionedCollection
  simp [length_combineC, enrichedCollection_length]

/-- C1: every invocation of `makeProductCollection` caps the filtered input
collection at 5000 source images — the `.limit(5000)` of LEAF.py line 81
sits after the bounds/date/cloud-cover/calendar filters — and consequently
the returned product collection also never exceeds 5000 images. -/
theorem makeProductCollection_capped (a : Args) :
    (makeInputCollection a).length ≤ 5000 ∧ (makeProductCollection a).length ≤ 5000 := by
  refine ⟨makeInputCollection_le a, ?_⟩
  unfold makeProductCollection
  split
  · split
    · rw [enrichedCollection_length]; exact makeInputCollection_le a
    · rw [networkOutputs_length]; exact makeInputCollection_le a
  · simp

/-- C2: when the filtered input collection is empty, `makeProductCollection`
returns the empty collection as its normal terminal result (LEAF.py lines
89, 133–137); the source function contains no raise statement, and its
embedding is a total function. -/
theorem makeProductCollection_empty (a : Args)
    (h : makeInputCollection a = []) : makeProductCollection a = [] := by
  unfold makeProductCollection
  rw [h]
  simp

/-- Witness for C2: a concrete empty-query invocation returns the empty
collection. -/
theorem makeProductCollection_empty_witness :
    makeInputCollection argsEmpty = [] ∧ makeProductCollection argsEmpty = [] :=
  ⟨by decide, makeProductCollection_empty argsEmpty (by decide)⟩

/-- Every `getD` lookup into a list of bounded entries is bounded, the
default included. -/
theorem getD_bounds {l : List Int} {b : Int} {d : Int} (hd : 0 ≤ d ∧ d ≤ b)
    (h : ∀ y ∈ l, 0 ≤ y ∧ y ≤ b) (i : Nat) : 0 ≤ l.getD i d ∧ l.getD i d ≤ b := by
  induction l generalizing i with
  | nil => simpa [List.getD] using hd
  | cons y ys ih =>
    cases i with
    | zero => simpa using h y (by simp)
    | succ j => simpa using ih (fun z hz => h z (by simp [hz])) j

/-- C7: the current partition constructors of all four sensor families are
one and the same function, their land-cover remap tables are identical, the
remap's outputs always lie in the partition index range 0–19, and unmatched
class codes default to 0 (SL2PV1ENF.py lines 46–50, 94–98, 142–146,
192–196). -/
theorem partition_remap_uniform :
    (s2_remapFrom = l7_remapFrom ∧ s2_remapTo = l7_remapTo ∧
     s2_remapFrom = l8_remapFrom ∧ s2_remapTo = l8_remapTo ∧
     s2_remapFrom = l9_remapFrom ∧ s2_remapTo = l9_remapTo) ∧
    (∀ env : Env,
      s2_createImageCollection_partition env = l7_createImageCollection_partition env ∧
      s2_createImageCollection_partition env = l8_createImageCollection_partition env ∧
      s2_createImageCollection_partition env = l9_createImageCollection_partition env) ∧
    (∀ x : Int, 0 ≤ eeRemap s2_remapFrom s2_remapTo 0 x ∧
      eeRemap s2_remapFrom s2_remapTo 0 x ≤ 19) ∧
    (∀ x : Int, x ∉ s2_remapFrom → eeRemap s2_remapFrom s2_remapTo 0 x = 0) := by
  refine ⟨⟨rfl, rfl, rfl, rfl, rfl, rfl⟩, fun env => ⟨rfl, rfl, rfl⟩, ?_, ?_⟩
  · intro x
    unfold eeRemap
    cases h : s2_remapFrom.indexOf? x with
    | none => simp
    | some i =>
      simp only []
      exact getD_bounds (by decide) (by decide) i
  · intro x hx
    unfold eeRemap
    have : s2_remapFrom.indexOf? x = none := by
      rw [List.indexOf?_eq_none_iff]
      intro y hy
      simpa using fun hyx => hx (by rwa [hyx] at hy)
    rw [this]

/-- Witness to C7 at a concrete unmatched class code. -/
theorem partition_remap_uniform_witness : eeRemap s2_remapFrom s2_remapTo 0 7 = 0 :=
  partition_remap_uniform.2.2.2 7 (by decide)

/-- Every feature produced by one backend sampling call with
`geometries = false` and `dropNulls = true` has no geometry and reads off a
region pixel at which no band of the image is masked. -/
theorem eeSample_mem {region : List Nat} {pj s : Nat} {mode : SampleMode}
    {img : Image} {f : Feature}
    (hf : f ∈ eeSample region pj s false true mode img) :
    f.geom = none ∧ ∃ p, p ∈ region ∧
      (∀ nb ∈ img.bands, (nb.2.vals.getD p none).isSome) ∧
      f.props = img.bands.map (fun nb => (nb.1, nb.2.vals.getD p none)) := by
  unfold eeSample at hf
  simp only [List.mem_map] at hf
  obtain ⟨p, hp, rfl⟩ := hf
  have hpc : p ∈ region.filter
      (fun p => img.bands.all (fun nb => (nb.2.vals.getD p none).isSome)) := by
    cases mode with
    | count n => exact List.mem_of_mem_take hp
    | fraction q => exact List.mem_of_mem_take hp
  rw [List.mem_filter] at hpc
  refine ⟨rfl, p, hpc.1, ?_, rfl⟩
  intro nb hnb
  exact List.all_eq_true.mp hpc.2 nb hnb

/-- Length of a flattened map is bounded by a uniform per-element bound. -/
theorem flatten_length_le {α β : Type} (g : α → List β) (n : Nat)
    (h : ∀ x, (g x).length ≤ n) (l : List α) :
    (l.map g).flatten.length ≤ l.length * n := by
  induction l with
  | nil => simp
  | cons x xs ih =>
    have := h x
    simp only [List.map_cons, List.flatten_cons, List.length_append,
      List.length_cons, Nat.succ_mul]
    omega

/-- C8: `sampleProductCollection` samples each product image within the
region's geometry — a fixed pixel count when `numPixels > 0`, a sampling
fraction otherwise — and in both modes every output feature omits its
geometry and comes from a region pixel with no null band value; in
fixed-count mode at most `numPixels` features are drawn per image (LEAF.py
lines 140–156). -/
theorem sampleProductCollection_spec (pc : List Image) (region : List Nat)
    (oScale : Nat) (factor : ℚ) (np : Nat) :
    (∀ f ∈ sampleProductCollection pc region oScale factor np,
      f.geom = none ∧ ∃ img ∈ pc, ∃ p ∈ region,
        (∀ nb ∈ img.bands, (nb.2.vals.getD p none).isSome) ∧
        f.props = img.bands.map (fun nb => (nb.1, nb.2.vals.getD p none))) ∧
    (0 < np →
      (sampleProductCollection pc region oScale factor np).length ≤ pc.length * np) := by
  constructor
  · intro f hf
    unfold sampleProductCollection at hf
    split at hf <;>
    · rw [List.mem_flatten] at hf
      obtain ⟨l, hl, hfl⟩ := hf
      rw [List.mem_map] at hl
      obtain ⟨img, himg, rfl⟩ := hl
      obtain ⟨hg, p, hp, hs, he⟩ := eeSample_mem hfl
      exact ⟨hg, img, himg, p, hp, hs, he⟩
  · intro hnp
    unfold sampleProductCollection
    rw [if_pos hnp]
    refine flatten_length_le _ np (fun img => ?_) pc
    unfold eeSample
    simp only [List.length_map]
    exact List.length_take_le np _

/-- Witness for C8: the fixed-count bound at a concrete product collection. -/
theorem sampleProductCollection_spec_witness :
    (sampleProductCollection [imgW] [0, 1] 30 1 1).length ≤ 1 * 1 := by
  have h := (sampleProductCollection_spec [imgW] [0, 1] 30 1 1).2 (by decide)
  simpa using h

/-! Helper lemmas for the dispatcher. -/
theorem rangeMap_getD {β : Type} (f : Nat → Option β) (n p : Nat) :
    ((List.range n).map f).getD p none = if p < n then f p else none := by
  by_cases hp : p < n
  · have h1 : ((List.range n).map f)[p]? = some (f p) := by
      rw [List.getElem?_map, List.getElem?_range hp]
      rfl
    simp [List.getD, h1, hp]
  · have h1 : ((List.range n).map f)[p]? = none := by
      rw [List.getElem?_eq_none]
      simpa using Nat.le_of_not_lt hp
    simp [List.getD, h1, hp]

theorem bandValAt_single {name : String} {bd : BandData} {img : Image} (p : Nat)
    (h : img.bands = [(name, bd)]) : bandValAt img name p = bd.vals.getD p none := by
  unfold bandValAt
  rw [h, List.find?_cons_of_pos _ (by simp)]

/-- Value of the estimate band produced by one estimate-mode dispatch. -/
theorem wrapperNNets_estimate_bandVal (nets : List (List Network)) (part : Image)
    (no : NetOptions) (v : String) (img : Image) (p : Nat) :
    bandValAt (wrapperNNets nets part no "estimate" v img) v p =
      if p < numPixOf part then
        dispatchAt (nets.getD (no.variableNum - 1) []) part no.inputBands img p
      else none := by
  have hb : (wrapperNNets nets part no "estimate" v img).bands =
      [(v, ⟨(List.range (numPixOf part)).map
          (fun q => dispatchAt (nets.getD (no.variableNum - 1) []) part no.inputBands img q),
        0, 0⟩)] := by
    simp [wrapperNNets]
  rw [bandValAt_single p hb]
  exact rangeMap_getD _ _ _

/-- Value of the error band produced by one error-mode dispatch. -/
theorem wrapperNNets_error_bandVal (nets : List (List Network)) (part : Image)
    (no : NetOptions) (v : String) (img : Image) (p : Nat) :
    bandValAt (wrapperNNets nets part no "error" v img) ("error" ++ v) p =
      if p < numPixOf part then
        dispatchAt (nets.getD (no.variableNum - 1) []) part no.inputBands img p
      else none := by
  have hb : (wrapperNNets nets part no "error" v img).bands =
      [("error" ++ v, ⟨(List.range (numPixOf part)).map
          (fun q => dispatchAt (nets.getD (no.variableNum - 1) []) part no.inputBands img q),
        0, 0⟩)] := by
    simp [wrapperNNets]
  rw [bandValAt_single p hb]
  exact rangeMap_getD _ _ _

/-- Anatomy of a non-masked dispatcher output: the pixel's class is read
from the partition image, lies in the bank's 1-based range, and the value
is the selected network evaluated on the pixel's input vector. -/
theorem dispatchAt_some {varNets : List Network} {partition : Image}
    {ibs : List String} {img : Image} {p : Nat} {y : ℚ}
    (h : dispatchAt varNets partition ibs img p = some y) :
    ∃ k x, (firstBandVal partition p).bind classOf = some k ∧
      1 ≤ k ∧ k ≤ varNets.length ∧
      inputVec ibs img p = some x ∧
      y = evalNetwork (varNets.getD (k - 1) defaultNetwork) x := by
  unfold dispatchAt at h
  cases hq : firstBandVal partition p with
  | none => simp only [hq] at h; simp at h
  | some q =>
    simp only [hq] at h
    cases hk : classOf q with
    | none => simp only [hk] at h; simp at h
    | some k =>
      simp only [hk] at h
      split at h
      · cases hx : inputVec ibs img p with
        | none => simp only [hx] at h; simp at h
        | some x =>
          simp only [hx] at h
          injection h with h
          exact ⟨k, x, by simp [hq, hk], by omega, by omega, rfl, h.symm⟩
      · cases h

set_option maxHeartbeats 2000000 in
/-- C4: in every network-applying invocation of `makeProductCollection`,
the estimate-network dispatch and the uncertainty-network dispatch both
consume the single partition image computed once per invocation (LEAF.py
lines 101, 126–127): whenever both the estimate band and the error band are
non-masked at a pixel of the image at one collection index, one and the
same partition class `k`, read from that shared partition image, selected
both networks, and both were evaluated on the same conditioned input
vector. -/
theorem estimate_uncertainty_alignment (a : Args) (i p : Nat)
    (img1 img2 : Image) (y z : ℚ)
    (h1 : (estimateCollection a)[i]? = some img1)
    (h2 : (uncertaintyCollection a)[i]? = some img2)
    (hy : bandValAt img1 a.variableName p = some y)
    (hz : bandValAt img2 ("error" ++ a.variableName) p = some z) :
    ∃ k x imgc,
      (firstBandVal (partitionImage a) p).bind classOf = some k ∧
      (conditionedCollection a)[i]? = some imgc ∧
      inputVec a.no.inputBands imgc p = some x ∧
      y = evalNetwork ((a.co.collectionSL2P.getD (a.no.variableNum - 1) []).getD
        (k - 1) defaultNetwork) x ∧
      z = evalNetwork ((a.co.collectionSL2Perrors.getD (a.no.variableNum - 1) []).getD
        (k - 1) defaultNetwork) x := by
  unfold estimateCollection at h1
  rw [List.getElem?_map] at h1
  cases hc : (conditionedCollection a)[i]? with
  | none => rw [hc] at h1; simp at h1
  | some imgc =>
    rw [hc] at h1
    simp only [Option.map_some'] at h1
    injection h1 with h1
    unfold uncertaintyCollection at h2
    rw [List.getElem?_map, hc] at h2
    simp only [Option.map_some'] at h2
    injection h2 with h2
    subst h1
    subst h2
    rw [wrapperNNets_estimate_bandVal] at hy
    rw [wrapperNNets_error_bandVal] at hz
    by_cases hp : p < numPixOf (partitionImage a)
    · rw [if_pos hp] at hy
      rw [if_pos hp] at hz
      obtain ⟨k, x, hk, _, _, hx, hy'⟩ := dispatchAt_some hy
      obtain ⟨k', x', hk', _, _, hx', hz'⟩ := dispatchAt_some hz
      rw [hk] at hk'
      injection hk' with hk'
      rw [hx] at hx'
      injection hx' with hx'
      subst hk'
      subst hx'
      exact ⟨k, x, imgc, hk, rfl, hx, hy', hz'⟩
    · rw [if_neg hp] at hy
      exact absurd hy (by simp)

/-! Provenance (applied-operation) lemmas for the pipeline stages. -/
theorem partitionImage_bandNames (a : Args) :
    bandNames (partitionImage a) = ["partition"] := by
  simp [partitionImage, renameAll, clip, maskPixels, mosaic, bandNames]

theorem mem_makeInputCollection {a : Args} {img : Image}
    (h : img ∈ makeInputCollection a) :
    ∃ i ∈ a.env.archives a.co.name,
      img = addGeometry (attach_LonLat (attach_Date (MaskClear (clip a.mapBounds i)))) := by
  unfold makeInputCollection at h
  rw [List.mem_map] at h
  obtain ⟨i, hi, rfl⟩ := h
  refine ⟨i, ?_, rfl⟩
  have h1 := List.mem_of_mem_take hi
  have h2 := (List.mem_filter.mp h1).1
  have h3 := (List.mem_filter.mp h2).1
  have h4 := (List.mem_filter.mp h3).1
  exact (List.mem_filter.mp h4).1

theorem makeInputCollection_ops {a : Args} {img : Image}
    (h : img ∈ makeInputCollection a)
    (hArch : ∀ j ∈ a.env.archives a.co.name, j.ops = []) :
    img.ops = [Op.clip, Op.maskClear, Op.attachDate, Op.attachLonLat, Op.addGeometry] := by
  obtain ⟨i, hi, rfl⟩ := mem_makeInputCollection h
  simp [addGeometry, attach_LonLat, attach_Date, MaskClear, clip, maskPixels, hArch i hi]

theorem mem_maskedScaled {a : Args} {img : Image}
    (h : img ∈ maskedScaledCollection a) :
    ∃ j ∈ makeInputCollection a,
      img = scaleBands a.no.inputBands a.no.inputScaling a.no.inputOffset
        (MaskLand a.co (resampleTo (refProjection a) a.inputScale j)) := by
  unfold maskedScaledCollection at h
  rw [List.mem_map] at h
  obtain ⟨m, hm, rfl⟩ := h
  rw [List.mem_map] at hm
  obtain ⟨j, hj, rfl⟩ := hm
  exact ⟨j, hj, rfl⟩

theorem maskedScaled_ops {a : Args} {img : Image}
    (h : img ∈ maskedScaledCollection a)
    (hArch : ∀ j ∈ a.env.archives a.co.name, j.ops = []) :
    img.ops = [Op.clip, Op.maskClear, Op.attachDate, Op.attachLonLat, Op.addGeometry,
      Op.setDefaultProjectionFirst, Op.reduceResolution Reducer.mean,
      Op.reproject (refProjection a) a.inputScale, Op.maskLand, Op.scaleBands] := by
  obtain ⟨j, hj, rfl⟩ := mem_maskedScaled h
  simp [scaleBands, MaskLand, maskPixels, resampleTo, makeInputCollection_ops hj hArch]

theorem mem_combineC {ps ss : List Image} {img : Image} (h : img ∈ combineC ps ss) :
    ∃ q ∈ ps, img.ops = q.ops ++ [Op.combine] ∨
      ∃ s ∈ ss, img.ops = q.ops ++ s.ops ++ [Op.combine] := by
  induction ps generalizing ss with
  | nil => cases ss <;> simp [combineC] at h
  | cons q qs ih =>
    cases ss with
    | nil =>
      rw [show combineC (q :: qs) [] =
        { q with ops := q.ops ++ [Op.combine] } :: combineC qs [] from rfl] at h
      rcases List.mem_cons.mp h with rfl | h'
      · exact ⟨q, by simp, Or.inl rfl⟩
      · obtain ⟨q', hq', hops⟩ := ih h'
        rcases hops with hops | ⟨s, hs, _⟩
        · exact ⟨q', List.mem_cons_of_mem _ hq', Or.inl hops⟩
        · simp at hs
    | cons s ss' =>
      rw [show combineC (q :: qs) (s :: ss') =
        { q with bands := q.bands ++ s.bands, ops := q.ops ++ s.ops ++ [Op.combine] } ::
          combineC qs ss' from rfl] at h
      rcases List.mem_cons.mp h with rfl | h'
      · exact ⟨q, by simp, Or.inr ⟨s, by simp, rfl⟩⟩
      · obtain ⟨q', hq', hops⟩ := ih h'
        rcases hops with hops | ⟨s', hs', hops⟩
        · exact ⟨q', by simp [hq'], Or.inl hops⟩
        · exact ⟨q', by simp [hq'], Or.inr ⟨s', by simp [hs'], hops⟩⟩

theorem enriched_ops {a : Args} {img : Image}
    (h : img ∈ enrichedCollection a)
    (h1 : ∀ j ∈ a.env.archives a.co.name, j.ops = [])
    (h2 : ∀ j ∈ a.env.archives "COPERNICUS/S2_CLOUD_PROBABILITY", j.ops = []) :
    ∃ rest, img.ops = enrichPrefix (refProjection a) a.inputScale ++ rest ∧
      (rest = [] ∨ rest = [Op.combine] ∨
        rest = s2TailOps (refProjection a) a.inputScale) := by
  unfold enrichedCollection at h
  split at h
  · obtain ⟨q, hq, hops⟩ := mem_combineC h
    rw [List.mem_map] at hq
    obtain ⟨m, hm, rfl⟩ := hq
    have hq_ops : (addBands (partitionImage a) m).ops =
        enrichPrefix (refProjection a) a.inputScale := by
      simp [addBands, partitionImage_bandNames, maskedScaled_ops hm h1, enrichPrefix]
    rcases hops with hops | ⟨s, hs, hops⟩
    · exact ⟨[Op.combine], by rw [hops, hq_ops], Or.inr (Or.inl rfl)⟩
    · rw [List.mem_map] at hs
      obtain ⟨j, hj, rfl⟩ := hs
      have hjops : j.ops = [] := by
        refine h2 j ?_
        have hj1 := (List.mem_filter.mp hj).1
        exact (List.mem_filter.mp hj1).1
      have hs_ops : (renameAll "s2cloudless_probability"
          (resampleTo (refProjection a) a.inputScale j)).ops =
          [Op.setDefaultProjectionFirst, Op.reduceResolution Reducer.mean,
           Op.reproject (refProjection a) a.inputScale,
           Op.renameBands "s2cloudless_probability"] := by
        simp [renameAll, resampleTo, hjops]
      refine ⟨s2TailOps (refProjection a) a.inputScale, ?_, Or.inr (Or.inr rfl)⟩
      rw [hops, hq_ops, hs_ops]
      simp [s2TailOps, enrichPrefix]
  · rw [List.mem_map] at h
    obtain ⟨m, hm, rfl⟩ := h
    refine ⟨[], ?_, Or.inl rfl⟩
    simp [addBands, partitionImage_bandNames, maskedScaled_ops hm h1, enrichPrefix]

theorem conditioned_ops {a : Args} {img : Image}
    (h : img ∈ conditionedCollection a)
    (h1 : ∀ j ∈ a.env.archives a.co.name, j.ops = [])
    (h2 : ∀ j ∈ a.env.archives "COPERNICUS/S2_CLOUD_PROBABILITY", j.ops = []) :
    ∃ rest, img.ops =
        enrichPrefix (refProjection a) a.inputScale ++ rest ++ [Op.invalidInput] ∧
      (rest = [] ∨ rest = [Op.combine] ∨
        rest = s2TailOps (refProjection a) a.inputScale) := by
  unfold conditionedCollection at h
  rw [List.mem_map] at h
  obtain ⟨m, hm, rfl⟩ := h
  obtain ⟨rest, hops, hrest⟩ := enriched_ops hm h1 h2
  refine ⟨rest, ?_, hrest⟩
  simp [invalidInput, hops]

/-- Counterexample to C3 as stated: a concrete non-empty raw-reflectance
invocation returns a collection whose image carries no `QC` band — the
QC domain-flagging step of Input Conditioning (`toolsUtils.invalidInput`,
LEAF.py line 117) is reached only on the network branch and is skipped when
`variable == "Surface_Reflectance"` (LEAF.py lines 113–114). -/
theorem surface_reflectance_qc_counterexample :
    0 < (makeInputCollection argsSR).length ∧
    argsSR.variableName = "Surface_Reflectance" ∧
    ∃ img ∈ makeProductCollection argsSR, "QC" ∉ bandNames img := by decide

/-- C3 amended: on the raw-reflectance branch no network is applied and the
returned collection is exactly the enriched conditioned collection (masked,
scaled, partition-attached); land masking and band scaling do apply, but
the QC domain-flagging step does not (LEAF.py lines 96–117). -/
theorem surface_reflectance_passthrough (a : Args)
    (hv : a.variableName = "Surface_Reflectance")
    (h1 : ∀ j ∈ a.env.archives a.co.name, j.ops = [])
    (h2 : ∀ j ∈ a.env.archives "COPERNICUS/S2_CLOUD_PROBABILITY", j.ops = []) :
    makeProductCollection a =
      (if 0 < (makeInputCollection a).length then enrichedCollection a else []) ∧
    ∀ img ∈ makeProductCollection a,
      Op.maskLand ∈ img.ops ∧ Op.scaleBands ∈ img.ops ∧
      Op.invalidInput ∉ img.ops ∧ ∀ m v, Op.applyNets m v ∉ img.ops := by
  have hmpc : makeProductCollection a =
      (if 0 < (makeInputCollection a).length then enrichedCollection a else []) := by
    unfold makeProductCollection
    rw [hv]
    simp
  refine ⟨hmpc, ?_⟩
  intro img himg
  rw [hmpc] at himg
  by_cases hne : 0 < (makeInputCollection a).length
  · rw [if_pos hne] at himg
    obtain ⟨rest, hops, hrest⟩ := enriched_ops himg h1 h2
    rw [hops]
    rcases hrest with rfl | rfl | rfl <;> simp [enrichPrefix, s2TailOps]
  · rw [if_neg hne] at himg
    simp at himg

/-- Witness for the amended C3 at the concrete raw-reflectance invocation. -/
theorem surface_reflectance_passthrough_witness :
    makeProductCollection argsSR =
      (if 0 < (makeInputCollection argsSR).length then enrichedCollection argsSR
       else []) ∧
    ∀ img ∈ makeProductCollection argsSR,
      Op.maskLand ∈ img.ops ∧ Op.scaleBands ∈ img.ops ∧
      Op.invalidInput ∉ img.ops ∧ ∀ m v, Op.applyNets m v ∉ img.ops :=
  surface_reflectance_passthrough argsSR rfl (by decide) (by decide)

theorem opBefore_append {l1 l2 : List Op} {x y : Op} (h : opBefore l1 x y) :
    opBefore (l1 ++ l2) x y := by
  obtain ⟨i, j, hij, hx, hy⟩ := h
  have hj : j < l1.length := by
    by_contra hj
    rw [List.getElem?_eq_none (Nat.le_of_not_lt hj)] at hy
    simp at hy
  have hi : i < l1.length := lt_trans hij hj
  exact ⟨i, j, hij, by rw [List.getElem?_append_left hi]; exact hx,
    by rw [List.getElem?_append_left hj]; exact hy⟩

/-- The mean-reduced reprojection to the working projection sits at index 7
of the enrichment operations. -/
theorem enrichPrefix_get7 (r s : Nat) (rest : List Op) :
    (enrichPrefix r s ++ rest)[7]? = some (Op.reproject r s) := by
  rw [List.getElem?_append_left (by rw [show (enrichPrefix r s).length = 11 from rfl]; omega)]
  rfl

theorem conditioned_opBefore {a : Args} {img : Image}
    (h : img ∈ conditionedCollection a)
    (h1 : ∀ j ∈ a.env.archives a.co.name, j.ops = [])
    (h2 : ∀ j ∈ a.env.archives "COPERNICUS/S2_CLOUD_PROBABILITY", j.ops = []) :
    opBefore img.ops (Op.reproject (refProjection a) a.inputScale) Op.maskLand ∧
    opBefore img.ops (Op.reproject (refProjection a) a.inputScale) Op.scaleBands ∧
    opBefore img.ops (Op.reproject (refProjection a) a.inputScale) Op.invalidInput ∧
    Op.reduceResolution Reducer.mean ∈ img.ops := by
  obtain ⟨rest, hops, _⟩ := conditioned_ops h h1 h2
  rw [hops]
  have hlen : (enrichPrefix (refProjection a) a.inputScale).length = 11 := rfl
  refine ⟨?_, ?_, ?_, ?_⟩
  · rw [List.append_assoc]
    exact opBefore_append ⟨7, 8, by omega, rfl, rfl⟩
  · rw [List.append_assoc]
    exact opBefore_append ⟨7, 9, by omega, rfl, rfl⟩
  · refine ⟨7, (enrichPrefix (refProjection a) a.inputScale ++ rest).length, ?_, ?_, ?_⟩
    · rw [List.length_append, hlen]
      omega
    · rw [List.getElem?_append_left (by rw [List.length_append, hlen]; omega)]
      exact enrichPrefix_get7 _ _ _
    · exact List.getElem?_concat_length _ _
  · rw [List.append_assoc]
    refine List.mem_append_left _ ?_
    simp [enrichPrefix]

theorem estimate_opBefore {a : Args} {img : Image}
    (h : img ∈ estimateCollection a)
    (h1 : ∀ j ∈ a.env.archives a.co.name, j.ops = [])
    (h2 : ∀ j ∈ a.env.archives "COPERNICUS/S2_CLOUD_PROBABILITY", j.ops = []) :
    opBefore img.ops (Op.reproject (refProjection a) a.inputScale)
      (Op.applyNets "estimate" a.variableName) := by
  unfold estimateCollection at h
  rw [List.mem_map] at h
  obtain ⟨m, hm, rfl⟩ := h
  obtain ⟨rest, hops, _⟩ := conditioned_ops hm h1 h2
  have hw : (wrapperNNets a.co.collectionSL2P (partitionImage a) a.no "estimate"
      a.variableName m).ops = m.ops ++ [Op.applyNets "estimate" a.variableName] := by
    simp [wrapperNNets]
  rw [hw, hops]
  have hlen : (enrichPrefix (refProjection a) a.inputScale).length = 11 := rfl
  refine ⟨7, (enrichPrefix (refProjection a) a.inputScale ++ rest ++
    [Op.invalidInput]).length, ?_, ?_, List.getElem?_concat_length _ _⟩
  · rw [List.length_append, List.length_append, hlen]
    omega
  · rw [List.getElem?_append_left
      (by rw [List.length_append, List.length_append, hlen]; omega)]
    rw [List.append_assoc]
    exact enrichPrefix_get7 _ _ _

theorem combineC_getElem? {ps ss : List Image} {i : Nat} {img : Image}
    (h : (combineC ps ss)[i]? = some img) :
    ∃ q, ps[i]? = some q ∧
      ((ss[i]? = none ∧ img.ops = q.ops ++ [Op.combine]) ∨
       ∃ s, ss[i]? = some s ∧ img.ops = q.ops ++ s.ops ++ [Op.combine]) := by
  induction ps generalizing ss i with
  | nil => cases ss <;> simp [combineC] at h
  | cons q qs ih =>
    cases ss with
    | nil =>
      rw [show combineC (q :: qs) [] =
        { q with ops := q.ops ++ [Op.combine] } :: combineC qs [] from rfl] at h
      cases i with
      | zero =>
        rw [List.getElem?_cons_zero] at h
        injection h with h
        exact ⟨q, by simp, Or.inl ⟨rfl, by rw [← h]⟩⟩
      | succ n =>
        rw [List.getElem?_cons_succ] at h
        obtain ⟨q', hq', hops⟩ := ih h
        refine ⟨q', by rw [List.getElem?_cons_succ]; exact hq', ?_⟩
        rcases hops with ⟨_, hops⟩ | ⟨s, hs, _⟩
        · exact Or.inl ⟨rfl, hops⟩
        · simp at hs
    | cons s ss' =>
      rw [show combineC (q :: qs) (s :: ss') =
        { q with bands := q.bands ++ s.bands, ops := q.ops ++ s.ops ++ [Op.combine] } ::
          combineC qs ss' from rfl] at h
      cases i with
      | zero =>
        rw [List.getElem?_cons_zero] at h
        injection h with h
        exact ⟨q, by simp, Or.inr ⟨s, by simp, by rw [← h]⟩⟩
      | succ n =>
        rw [List.getElem?_cons_succ] at h
        obtain ⟨q', hq', hops⟩ := ih h
        refine ⟨q', by rw [List.getElem?_cons_succ]; exact hq', ?_⟩
        rcases hops with ⟨hn, hops⟩ | ⟨s', hs', hops⟩
        · exact Or.inl ⟨by rw [List.getElem?_cons_succ]; exact hn, hops⟩
        · exact Or.inr ⟨s', by rw [List.getElem?_cons_succ]; exact hs', hops⟩

theorem conditionedCollection_length (a : Args) :
    (conditionedCollection a).length = (makeInputCollection a).length := by
  simp [conditionedCollection, enrichedCollection_length]

theorem estimateCollection_length (a : Args) :
    (estimateCollection a).length = (makeInputCollection a).length := by
  simp [estimateCollection, conditionedCollection_length]

theorem networkOutputs_ops {a : Args} {i : Nat} {img : Image}
    (h : (networkOutputs a)[i]? = some img) :
    ∃ l, img.ops = l ++ [Op.setDefaultProjectionFirst,
        Op.reduceResolution Reducer.mean,
        Op.reproject (refProjection a) a.outputScale] ∧
      Op.applyNets "estimate" a.variableName ∈ l := by
  have hno : networkOutputs a =
      (combineC (combineC ((conditionedCollection a).map (selectBands (keepBandNames a)))
          (estimateCollection a))
        ((uncertaintyCollection a).map
          (selectBands ["error" ++ a.variableName]))).map
        (resampleTo (refProjection a) a.outputScale) := rfl
  rw [hno, List.getElem?_map] at h
  cases ho : (combineC (combineC ((conditionedCollection a).map
      (selectBands (keepBandNames a))) (estimateCollection a))
      ((uncertaintyCollection a).map (selectBands ["error" ++ a.variableName])))[i]? with
  | none => rw [ho] at h; simp at h
  | some o =>
    rw [ho] at h
    simp only [Option.map_some'] at h
    injection h with h
    subst h
    obtain ⟨q, hq, hqops⟩ := combineC_getElem? ho
    obtain ⟨q0, hq0, hq0ops⟩ := combineC_getElem? hq
    have hi : i < (estimateCollection a).length := by
      obtain ⟨hlt, -⟩ := List.getElem?_eq_some.mp hq0
      rw [List.length_map, conditionedCollection_length] at hlt
      rw [estimateCollection_length]
      exact hlt
    obtain ⟨e, he⟩ : ∃ e, (estimateCollection a)[i]? = some e := by
      cases he : (estimateCollection a)[i]? with
      | none => exact absurd (List.getElem?_eq_none_iff.mp he) (by omega)
      | some e => exact ⟨e, rfl⟩
    have happly : Op.applyNets "estimate" a.variableName ∈ e.ops := by
      unfold estimateCollection at he
      rw [List.getElem?_map] at he
      cases hm : (conditionedCollection a)[i]? with
      | none => rw [hm] at he; simp at he
      | some m =>
        rw [hm] at he
        simp only [Option.map_some'] at he
        injection he with he
        rw [← he]
        simp [wrapperNNets]
    have hqe : Op.applyNets "estimate" a.variableName ∈ q.ops := by
      rcases hq0ops with ⟨hn, -⟩ | ⟨e', he', hops⟩
      · rw [he] at hn; cases hn
      · rw [he] at he'
        injection he' with he'
        subst he'
        rw [hops]
        exact List.mem_append_left _ (List.mem_append_right _ happly)
    have hoe : Op.applyNets "estimate" a.variableName ∈ o.ops := by
      rcases hqops with ⟨-, hops⟩ | ⟨s, -, hops⟩ <;> rw [hops]
      · exact List.mem_append_left _ hqe
      · exact List.mem_append_left _ (List.mem_append_left _ hqe)
    exact ⟨o.ops, by simp [resampleTo], hoe⟩

/-- C6: every image of a non-empty invocation is resampled to the working
projection — read from the designated reference input band — at the input
scale with the mean reducer before land masking, band scaling and QC
flagging (LEAF.py lines 92–98), the estimate networks are applied only
after that resampling (line 126), and on the network branch the combined
output's provenance ends with the mean-reduced reprojection to the caller's
output scale, placed after the network application (lines 128–131). -/
theorem reproject_policy (a : Args)
    (h1 : ∀ j ∈ a.env.archives a.co.name, j.ops = [])
    (h2 : ∀ j ∈ a.env.archives "COPERNICUS/S2_CLOUD_PROBABILITY", j.ops = []) :
    (∀ img ∈ conditionedCollection a,
      opBefore img.ops (Op.reproject (refProjection a) a.inputScale) Op.maskLand ∧
      opBefore img.ops (Op.reproject (refProjection a) a.inputScale) Op.scaleBands ∧
      opBefore img.ops (Op.reproject (refProjection a) a.inputScale) Op.invalidInput ∧
      Op.reduceResolution Reducer.mean ∈ img.ops) ∧
    (∀ img ∈ estimateCollection a,
      opBefore img.ops (Op.reproject (refProjection a) a.inputScale)
        (Op.applyNets "estimate" a.variableName)) ∧
    (a.variableName ≠ "Surface_Reflectance" →
      ∀ (i : Nat) (img : Image), (makeProductCollection a)[i]? = some img →
        ∃ l, img.ops = l ++ [Op.setDefaultProjectionFirst,
            Op.reduceResolution Reducer.mean,
            Op.reproject (refProjection a) a.outputScale] ∧
          Op.applyNets "estimate" a.variableName ∈ l) := by
  refine ⟨fun img himg => conditioned_opBefore himg h1 h2,
    fun img himg => estimate_opBefore himg h1 h2, ?_⟩
  intro hv i img h
  unfold makeProductCollection at h
  by_cases hne : 0 < (makeInputCollection a).length
  · rw [if_pos hne, if_neg hv] at h
    exact networkOutputs_ops h
  · rw [if_neg hne] at h
    simp at h

/-- Witness for C6 at the concrete network invocation. -/
theorem reproject_policy_witness :
    (∀ img ∈ conditionedCollection argsNN,
      opBefore img.ops (Op.reproject (refProjection argsNN) argsNN.inputScale)
        Op.maskLand ∧
      opBefore img.ops (Op.reproject (refProjection argsNN) argsNN.inputScale)
        Op.scaleBands ∧
      opBefore img.ops (Op.reproject (refProjection argsNN) argsNN.inputScale)
        Op.invalidInput ∧
      Op.reduceResolution Reducer.mean ∈ img.ops) ∧
    (∀ img ∈ estimateCollection argsNN,
      opBefore img.ops (Op.reproject (refProjection argsNN) argsNN.inputScale)
        (Op.applyNets "estimate" argsNN.variableName)) ∧
    (argsNN.variableName ≠ "Surface_Reflectance" →
      ∀ (i : Nat) (img : Image), (makeProductCollection argsNN)[i]? = some img →
        ∃ l, img.ops = l ++ [Op.setDefaultProjectionFirst,
            Op.reduceResolution Reducer.mean,
            Op.reproject (refProjection argsNN) argsNN.outputScale] ∧
          Op.applyNets "estimate" argsNN.variableName ∈ l) :=
  reproject_policy argsNN (by decide) (by decide)

/-! Orchestration-layer lemmas and claims. -/
theorem sampleSitesBody_not_next (sa : SiteArgs) (input : List Site) :
    (sampleSitesBody sa input).2 ≠ LoopOut.next := by
  unfold sampleSitesBody
  split
  · simp
  · split <;> simp

theorem sampleSitesBody_ret (sa : SiteArgs) (input : List Site) (b : Bool)
    (h : (sampleSitesBody sa input).2 = LoopOut.ret b) : b = true := by
  unfold sampleSitesBody at h
  split at h
  · simp at h
  · split at h <;> simp_all

/-- C9: the `return True` of `sampleSites` sits inside its loop over
`siteList` (LEAF.py line 461), so a run over several feature collections is
the very same run as over the first alone — the second and later
collections are never processed — and whenever the function returns
normally it returns `True`. -/
theorem sampleSites_first_site_only (sa : SiteArgs) (s1 : List Site)
    (rest : List (List Site)) :
    sampleSites sa (s1 :: rest) = sampleSites sa [s1] ∧
    ∀ b, (sampleSites sa (s1 :: rest)).2 = Except.ok b → b = some true := by
  have hnn := sampleSitesBody_not_next sa s1
  constructor
  · cases hb : sampleSitesBody sa s1 with
    | mk evs lo =>
      cases lo with
      | ret b => simp [sampleSites, runSites, hb]
      | raised e => simp [sampleSites, runSites, hb]
      | next => rw [hb] at hnn; simp at hnn
  · intro b hbk
    cases hb : sampleSitesBody sa s1 with
    | mk evs lo =>
      cases lo with
      | ret b' =>
        have hb' := sampleSitesBody_ret sa s1 b' (by rw [hb])
        subst hb'
        simp [sampleSites, runSites, hb] at hbk
        exact hbk.symm
      | raised e => simp [sampleSites, runSites, hb] at hbk
      | next => rw [hb] at hnn; simp at hnn

/-- Witness for C9: a concrete two-site run equals the one-site run and
returns `True`. -/
theorem sampleSites_first_site_only_witness :
    sampleSites saW [[siteW], [siteW]] = sampleSites saW [[siteW]] ∧
    (some true : Option Bool) = some true :=
  ⟨(sampleSites_first_site_only saW [siteW] [[siteW]]).1,
   (sampleSites_first_site_only saW [siteW] [[siteW]]).2 (some true) (by decide)⟩

theorem sampleShard_asset (sa : SiteArgs) (site : Site) (ds de : Int)
    (hdev : sa.exportDevice = some "Asset") :
    sampleShard sa site ds de =
      ([Ev.shardSampled], some (PyErr.nameError "sampleFeatureCollection")) := by
  unfold sampleShard
  rw [hdev]
  rfl

theorem sampleFeature_asset (sa : SiteArgs) (records : List Site) (n : Nat)
    (hdev : sa.exportDevice = some "Asset") (hn : n < records.length) :
    sampleFeature sa records n =
      ([Ev.shardSampled], some (PyErr.nameError "sampleFeatureCollection")) := by
  unfold sampleFeature
  cases hsite : records[n]? with
  | none => exact absurd (List.getElem?_eq_none_iff.mp hsite) (by omega)
  | some site =>
    simp only [hsite]
    exact sampleShard_asset sa site _ _ hdev

theorem sampleSitesBody_asset (sa : SiteArgs) (s1 : List Site)
    (hdev : sa.exportDevice = some "Asset")
    (hlo : sa.featureRange.1 < (sortSitesDesc s1).length)
    (hhi : sa.featureRange.1 ≤ featureEnd sa.featureRange.2 (sortSitesDesc s1).length) :
    sampleSitesBody sa s1 =
      ([Ev.sizeMaterialized, Ev.sizeMaterialized, Ev.shardSampled],
       LoopOut.raised (PyErr.nameError "sampleFeatureCollection")) := by
  unfold sampleSitesBody
  rw [if_neg (by rw [hdev]; simp)]
  have hsplit : List.range' sa.featureRange.1
      (featureEnd sa.featureRange.2 (sortSitesDesc s1).length + 1 - sa.featureRange.1) =
      sa.featureRange.1 :: List.range' (sa.featureRange.1 + 1)
        (featureEnd sa.featureRange.2 (sortSitesDesc s1).length - sa.featureRange.1) := by
    rw [show featureEnd sa.featureRange.2 (sortSitesDesc s1).length + 1 - sa.featureRange.1 =
      (featureEnd sa.featureRange.2 (sortSitesDesc s1).length - sa.featureRange.1) + 1 by
      omega]
    rw [List.range'_succ]
  rw [hsplit]
  have hloop : featureLoop (sampleFeature sa (sortSitesDesc s1))
      (sa.featureRange.1 :: List.range' (sa.featureRange.1 + 1)
        (featureEnd sa.featureRange.2 (sortSitesDesc s1).length - sa.featureRange.1)) =
      ([Ev.shardSampled], some (PyErr.nameError "sampleFeatureCollection")) := by
    simp only [featureLoop]
    rw [sampleFeature_asset sa _ _ hdev hlo]
  rw [hloop]
  rfl

/-- C10: with export device `'Asset'`, as soon as one shard produces a
(always truthy) output feature collection, `sampleSites` raises off the
unbound name `sampleFeatureCollection` in the export parameters (LEAF.py
line 443) before any export task is started. -/
theorem sampleSites_asset_unbound_name (sa : SiteArgs) (s1 : List Site)
    (rest : List (List Site))
    (hdev : sa.exportDevice = some "Asset")
    (hlo : sa.featureRange.1 < (sortSitesDesc s1).length)
    (hhi : sa.featureRange.1 ≤ featureEnd sa.featureRange.2 (sortSitesDesc s1).length) :
    (sampleSites sa (s1 :: rest)).2 =
      Except.error (PyErr.nameError "sampleFeatureCollection") ∧
    Ev.exportStarted ∉ (sampleSites sa (s1 :: rest)).1 := by
  have hb := sampleSitesBody_asset sa s1 hdev hlo hhi
  constructor
  · simp [sampleSites, runSites, hb]
  · simp [sampleSites, runSites, hb]

/-- Witness for C10 at a concrete `'Asset'` run. -/
theorem sampleSites_asset_unbound_name_witness :
    (sampleSites saAsset [[siteW]]).2 =
      Except.error (PyErr.nameError "sampleFeatureCollection") ∧
    Ev.exportStarted ∉ (sampleSites saAsset [[siteW]]).1 :=
  sampleSites_asset_unbound_name saAsset [siteW] [] (by decide) (by decide) (by decide)

/-- Counterexample to C5 as stated: `sampleSites` never checks `outputPath`
— a concrete run with `outputPath = None` (and a configured export device)
finishes normally and returns `True` instead of raising `ValueError`
(LEAF.py line 362 only checks `exportDevice`); moreover, in the run that
does raise (`exportDevice = None`), the site's feature count has already
been materialised on the backend before the `ValueError` (LEAF.py lines
355–359 precede line 362). -/
theorem missing_destination_counterexample :
    saNoPath.outputPath = none ∧
    (sampleSites saNoPath [[siteW]]).2 = Except.ok (some true) ∧
    (sampleSites saNoDev [[siteW]]).1.head? = some Ev.sizeMaterialized ∧
    (sampleSites saNoDev [[siteW]]).2 = Except.error
      (PyErr.valueError "Output Drive/Asset Folder/CloudStorage Path missing.") := by
  decide

/-- C5 amended: each entry point fails fast on the one destination setting
it actually checks — `sampleSites` on `exportDevice = None` (LEAF.py lines
362–363), `imageSites` on `outputPath = None` (lines 530–531) — raising
`ValueError` while processing the first site, after that site's feature
count is materialised but before any sampling, image production or export
task. -/
theorem missing_destination_raises (sa : SiteArgs) (s1 : List Site)
    (rest : List (List Site)) :
    (sa.exportDevice = none →
      (sampleSites sa (s1 :: rest)).2 = Except.error
        (PyErr.valueError "Output Drive/Asset Folder/CloudStorage Path missing.") ∧
      Ev.shardSampled ∉ (sampleSites sa (s1 :: rest)).1 ∧
      Ev.exportStarted ∉ (sampleSites sa (s1 :: rest)).1) ∧
    (sa.outputPath = none →
      (imageSites sa (s1 :: rest)).2 = Except.error
        (PyErr.valueError "Output Drive/Asset Folder/CloudStorage Path missing.") ∧
      Ev.shardImaged ∉ (imageSites sa (s1 :: rest)).1 ∧
      Ev.exportStarted ∉ (imageSites sa (s1 :: rest)).1) := by
  constructor
  · intro hdev
    have hb : sampleSitesBody sa s1 =
        ([Ev.sizeMaterialized, Ev.sizeMaterialized], LoopOut.raised
          (PyErr.valueError "Output Drive/Asset Folder/CloudStorage Path missing.")) := by
      unfold sampleSitesBody
      rw [if_pos hdev]
    refine ⟨?_, ?_, ?_⟩ <;> simp [sampleSites, runSites, hb]
  · intro hpath
    have hb : imageSitesBody sa s1 =
        ([Ev.sizeMaterialized, Ev.sizeMaterialized], LoopOut.raised
          (PyErr.valueError "Output Drive/Asset Folder/CloudStorage Path missing.")) := by
      unfold imageSitesBody
      rw [if_pos hpath]
    refine ⟨?_, ?_, ?_⟩ <;> simp [imageSites, runSites, hb, Except.map]

/-- Witness for the amended C5 at concrete runs of both entry points. -/
theorem missing_destination_raises_witness :
    ((sampleSites saNoDev [[siteW]]).2 = Except.error
        (PyErr.valueError "Output Drive/Asset Folder/CloudStorage Path missing.") ∧
      Ev.shardSampled ∉ (sampleSites saNoDev [[siteW]]).1 ∧
      Ev.exportStarted ∉ (sampleSites saNoDev [[siteW]]).1) ∧
    ((imageSites saNoPath [[siteW]]).2 = Except.error
        (PyErr.valueError "Output Drive/Asset Folder/CloudStorage Path missing.") ∧
      Ev.shardImaged ∉ (imageSites saNoPath [[siteW]]).1 ∧
      Ev.exportStarted ∉ (imageSites saNoPath [[siteW]]).1) :=
  ⟨(missing_destination_raises saNoDev [siteW] []).1 (by decide),
   (missing_destination_raises saNoPath [siteW] []).2 (by decide)⟩

/-- Witness for C4 at the concrete network invocation and pixel 0. -/
theorem estimate_uncertainty_alignment_witness :
    ∃ k x imgc,
      (firstBandVal (partitionImage argsNN) 0).bind classOf = some k ∧
      (conditionedCollection argsNN)[0]? = some imgc ∧
      inputVec argsNN.no.inputBands imgc 0 = some x ∧
      yW = evalNetwork ((argsNN.co.collectionSL2P.getD (argsNN.no.variableNum - 1)
        []).getD (k - 1) defaultNetwork) x ∧
      zW = evalNetwork ((argsNN.co.collectionSL2Perrors.getD (argsNN.no.variableNum - 1)
        []).getD (k - 1) defaultNetwork) x :=
  estimate_uncertainty_alignment argsNN 0 0 imgE imgU yW zW
    (by with_unfolding_all decide) (by with_unfolding_all decide)
    (by with_unfolding_all decide) (by with_unfolding_all decide)

end LEAF
